import Mathlib

/-!
Verification development for the geometry-learning repository.

The JavaScript source is shallowly embedded over exact real arithmetic
(`ℝ`): every coordinate is a real number, `Math.sqrt` is `Real.sqrt`,
`Math.cos`/`Math.sin` are `Real.cos`/`Real.sin`, and `Math.atan2` is the
complex argument.  JavaScript float division by zero (which produces
NaN/Infinity) has no counterpart in `ℝ`; Lean division by zero is total
and yields 0.  Wherever a claim is about a division-by-zero site, the
accompanying theorem is phrased so that it holds in both readings
(e.g. by showing the code mutates state it was required to leave alone,
which happens under either semantics).

Mutable vertex arrays of fixed arity (3 for triangles, 4 for
quadrilaterals) are embedded as functions `Fin 3 → Point` and
`Fin 4 → Point`; an in-place assignment `points[i] = q` becomes
`Function.update ps i q`.  Variable-length vertex lists are `List Point`.
-/

noncomputable section

open Real

-- ============================================================================
-- geometry-engine.js : Point and Vector
-- ============================================================================

/-- The `Point` class of geometry-engine.js: a 2D position. -/
structure Point where
  x : ℝ
  y : ℝ

/-- `Point.prototype.distanceTo`: `dx = other.x - this.x; dy = other.y - this.y;
return Math.sqrt(dx*dx + dy*dy)`. -/
def Point.distanceTo (a b : Point) : ℝ :=
  Real.sqrt ((b.x - a.x) * (b.x - a.x) + (b.y - a.y) * (b.y - a.y))

/-- `Point.midpoint(p1, p2)`. -/
def Point.midpoint (p q : Point) : Point :=
  ⟨(p.x + q.x) / 2, (p.y + q.y) / 2⟩

/-- The `Vector` class of geometry-engine.js. -/
structure Vec where
  x : ℝ
  y : ℝ

/-- `Vector.fromPoints(p1, p2)`. -/
def Vec.fromPoints (p q : Point) : Vec :=
  ⟨q.x - p.x, q.y - p.y⟩

/-- The `length` getter of `Vector`. -/
def Vec.length (v : Vec) : ℝ :=
  Real.sqrt (v.x * v.x + v.y * v.y)

/-- `Vector.prototype.normalize`: returns the zero vector when the length
is zero, never dividing by zero. -/
def Vec.normalize (v : Vec) : Vec :=
  if v.length = 0 then ⟨0, 0⟩ else ⟨v.x / v.length, v.y / v.length⟩

/-- `Math.atan2(y, x)`, embedded as the argument of the complex number
`x + y i` (both take values in `(-π, π]` and agree at the origin). -/
def atan2 (y x : ℝ) : ℝ :=
  Complex.arg ⟨x, y⟩

/-- Origin, used as the (never observed) default of out-of-range list reads. -/
def pt0 : Point := ⟨0, 0⟩

-- ============================================================================
-- geometry-engine.js : GeometryUtils polygon utilities
-- ============================================================================

namespace GeometryUtils

/-- One signed term of the shoelace accumulation in `GeometryUtils.polygonArea`:
`points[i].x * points[j].y - points[j].x * points[i].y`. -/
def crossTerm (p q : Point) : ℝ :=
  p.x * q.y - q.x * p.y

/-- The signed accumulator of `GeometryUtils.polygonArea` before the final
`Math.abs(area / 2)`: the loop over `i` with `j = (i+1) % n`. -/
def shoelaceSum (ps : List Point) : ℝ :=
  ∑ i in Finset.range ps.length,
    crossTerm (ps.getD i pt0) (ps.getD ((i + 1) % ps.length) pt0)

/-- `GeometryUtils.polygonArea(points)`: `Math.abs(area / 2)`. -/
def polygonArea (ps : List Point) : ℝ :=
  |shoelaceSum ps / 2|

/-- `GeometryUtils.polygonPerimeter(points)`: sum of consecutive distances,
wrapping last-to-first. -/
def polygonPerimeter (ps : List Point) : ℝ :=
  ∑ i in Finset.range ps.length,
    (ps.getD i pt0).distanceTo (ps.getD ((i + 1) % ps.length) pt0)

/-- `GeometryUtils.regularPolygonPoints(center, radius, sides, startAngle)`;
the JavaScript default `startAngle = -Math.PI / 2` is passed explicitly at
call sites. -/
def regularPolygonPoints (center : Point) (radius : ℝ) (sides : ℕ)
    (startAngle : ℝ) : List Point :=
  (List.range sides).map fun (i : ℕ) =>
    ⟨center.x + radius * Real.cos (startAngle + (2 * π * (i : ℝ)) / (sides : ℝ)),
     center.y + radius * Real.sin (startAngle + (2 * π * (i : ℝ)) / (sides : ℝ))⟩

end GeometryUtils

-- ============================================================================
-- geometry-engine.js : Shape.rotate / Shape.translate / Shape.scale,
-- applied pointwise (the methods loop `for (const p of this.points)`)
-- ============================================================================

/-- The per-point body of `Shape.prototype.rotate(angle, center)`. -/
def rotatePoint (angle : ℝ) (c : Point) (p : Point) : Point :=
  ⟨c.x + (p.x - c.x) * Real.cos angle - (p.y - c.y) * Real.sin angle,
   c.y + (p.x - c.x) * Real.sin angle + (p.y - c.y) * Real.cos angle⟩

/-- The per-point body of `Shape.prototype.translate(dx, dy)`. -/
def translatePoint (dx dy : ℝ) (p : Point) : Point :=
  ⟨p.x + dx, p.y + dy⟩

/-- The per-point body of `Shape.prototype.scale(factor, center)`. -/
def scalePoint (factor : ℝ) (c : Point) (p : Point) : Point :=
  ⟨c.x + (p.x - c.x) * factor, c.y + (p.y - c.y) * factor⟩

-- ============================================================================
-- Helper lemmas: cyclic sums and affine images of the shoelace sum
-- ============================================================================

/-- Summing `g ((i+1) % n)` over `i < n` is a cyclic reindexing of summing
`g i` over `i < n`. -/
lemma sum_range_cycle (n : ℕ) (g : ℕ → ℝ) :
    ∑ i in Finset.range n, g ((i + 1) % n) = ∑ i in Finset.range n, g i := by
  rcases n with _ | m
  · simp
  · rw [← Fin.sum_univ_eq_sum_range (fun i => g ((i + 1) % (m + 1))) (m + 1),
        ← Fin.sum_univ_eq_sum_range g (m + 1)]
    refine Fintype.sum_equiv (Equiv.addRight (1 : Fin (m + 1)))
      _ _ (fun i => ?_)
    have h : ((Equiv.addRight (1 : Fin (m + 1))) i).val = (i.val + 1) % (m + 1) := by
      simp [Fin.val_add, Nat.add_mod]
    rw [h]

lemma length_map_points (f : Point → Point) (ps : List Point) :
    (ps.map f).length = ps.length := by simp

/-- Reading a mapped list inside its range agrees with mapping the read. -/
lemma getD_map_lt (f : Point → Point) (ps : List Point) (i : ℕ)
    (h : i < ps.length) : (ps.map f).getD i pt0 = f (ps.getD i pt0) := by
  induction ps generalizing i with
  | nil => simp at h
  | cons a l ih =>
    cases i with
    | zero => simp
    | succ j =>
      simp only [List.map_cons, List.getD_cons_succ]
      exact ih j (by simpa using h)

/-- The shoelace accumulator of the image of a polygon under the affine map
`p ↦ (a·x + b·y + t₁, c·x + d·y + t₂)` is `(a·d - b·c)` times the original:
the translation part telescopes away around the vertex cycle. -/
lemma shoelaceSum_map_affine (a b c d t₁ t₂ : ℝ) (ps : List Point) :
    GeometryUtils.shoelaceSum
      (ps.map fun p => ⟨a * p.x + b * p.y + t₁, c * p.x + d * p.y + t₂⟩) =
    (a * d - b * c) * GeometryUtils.shoelaceSum ps := by
  classical
  set f : Point → Point := fun p => ⟨a * p.x + b * p.y + t₁, c * p.x + d * p.y + t₂⟩
  set n := ps.length with hn
  set h : ℕ → ℝ := fun i =>
    a * t₂ * (ps.getD i pt0).x + b * t₂ * (ps.getD i pt0).y
      - c * t₁ * (ps.getD i pt0).x - d * t₁ * (ps.getD i pt0).y with hh
  have hlen : (ps.map f).length = n := by simp [hn]
  have step : ∀ i ∈ Finset.range n,
      GeometryUtils.crossTerm ((ps.map f).getD i pt0)
        ((ps.map f).getD ((i + 1) % n) pt0) =
      (a * d - b * c) *
        GeometryUtils.crossTerm (ps.getD i pt0) (ps.getD ((i + 1) % n) pt0)
        + (h i - h ((i + 1) % n)) := by
    intro i hi
    have hi' : i < n := Finset.mem_range.mp hi
    have hj' : (i + 1) % n < n := Nat.mod_lt _ (by omega)
    rw [getD_map_lt f ps i (hn ▸ hi'), getD_map_lt f ps _ (hn ▸ hj')]
    simp only [GeometryUtils.crossTerm, f, hh]
    ring
  unfold GeometryUtils.shoelaceSum
  rw [hlen, ← hn, Finset.sum_congr rfl step, Finset.sum_add_distrib,
      Finset.sum_sub_distrib, sum_range_cycle n h, sub_self, add_zero,
      ← Finset.mul_sum]

lemma sq_nonneg_sum (u v : ℝ) : 0 ≤ u * u + v * v := by nlinarith

/-- Rotation about a center is the affine map with matrix
`[[cos, -sin], [sin, cos]]`. -/
lemma rotatePoint_eq_affine (θ : ℝ) (c : Point) :
    rotatePoint θ c = fun p : Point =>
      (⟨Real.cos θ * p.x + (-Real.sin θ) * p.y
          + (c.x - c.x * Real.cos θ + c.y * Real.sin θ),
        Real.sin θ * p.x + Real.cos θ * p.y
          + (c.y - c.x * Real.sin θ - c.y * Real.cos θ)⟩ : Point) := by
  funext p
  simp only [rotatePoint, Point.mk.injEq]
  exact ⟨by ring, by ring⟩

lemma translatePoint_eq_affine (dx dy : ℝ) :
    translatePoint dx dy = fun p : Point =>
      (⟨1 * p.x + 0 * p.y + dx, 0 * p.x + 1 * p.y + dy⟩ : Point) := by
  funext p
  simp only [translatePoint, Point.mk.injEq]
  exact ⟨by ring, by ring⟩

lemma scalePoint_eq_affine (k : ℝ) (c : Point) :
    scalePoint k c = fun p : Point =>
      (⟨k * p.x + 0 * p.y + (c.x - c.x * k),
        0 * p.x + k * p.y + (c.y - c.y * k)⟩ : Point) := by
  funext p
  simp only [scalePoint, Point.mk.injEq]
  exact ⟨by ring, by ring⟩

/-- Rotation preserves pairwise distances. -/
lemma distanceTo_rotate (θ : ℝ) (c : Point) (p q : Point) :
    (rotatePoint θ c p).distanceTo (rotatePoint θ c q) = p.distanceTo q := by
  unfold Point.distanceTo rotatePoint
  dsimp only
  congr 1
  have h := Real.sin_sq_add_cos_sq θ
  linear_combination
    ((q.x - p.x) * (q.x - p.x) + (q.y - p.y) * (q.y - p.y)) * h

/-- Translation preserves pairwise distances. -/
lemma distanceTo_translate (dx dy : ℝ) (p q : Point) :
    (translatePoint dx dy p).distanceTo (translatePoint dx dy q) =
      p.distanceTo q := by
  unfold Point.distanceTo translatePoint
  dsimp only
  congr 1
  ring

/-- Scaling by a positive factor scales pairwise distances by the factor. -/
lemma distanceTo_scale (k : ℝ) (hk : 0 < k) (c : Point) (p q : Point) :
    (scalePoint k c p).distanceTo (scalePoint k c q) = k * p.distanceTo q := by
  unfold Point.distanceTo scalePoint
  dsimp only
  have h1 : ((c.x + (q.x - c.x) * k) - (c.x + (p.x - c.x) * k)) *
        ((c.x + (q.x - c.x) * k) - (c.x + (p.x - c.x) * k)) +
      ((c.y + (q.y - c.y) * k) - (c.y + (p.y - c.y) * k)) *
        ((c.y + (q.y - c.y) * k) - (c.y + (p.y - c.y) * k)) =
      (k * k) * ((q.x - p.x) * (q.x - p.x) + (q.y - p.y) * (q.y - p.y)) := by
    ring
  rw [h1, Real.sqrt_mul (by positivity),
      Real.sqrt_mul_self hk.le]

/-- The perimeter of a pointwise-mapped polygon, when the map multiplies
every pairwise distance by a constant. -/
lemma polygonPerimeter_map_of_dist (f : Point → Point) (k : ℝ)
    (hf : ∀ p q : Point, (f p).distanceTo (f q) = k * p.distanceTo q)
    (ps : List Point) :
    GeometryUtils.polygonPerimeter (ps.map f) =
      k * GeometryUtils.polygonPerimeter ps := by
  unfold GeometryUtils.polygonPerimeter
  rw [length_map_points, Finset.mul_sum]
  refine Finset.sum_congr rfl (fun i hi => ?_)
  have hi' : i < ps.length := Finset.mem_range.mp hi
  have hj' : (i + 1) % ps.length < ps.length := Nat.mod_lt _ (by omega)
  rw [getD_map_lt f ps i hi', getD_map_lt f ps _ hj', hf]

lemma polygonArea_map_rotate (θ : ℝ) (c : Point) (ps : List Point) :
    GeometryUtils.polygonArea (ps.map (rotatePoint θ c)) =
      GeometryUtils.polygonArea ps := by
  have hdet : Real.cos θ * Real.cos θ - (-Real.sin θ) * Real.sin θ = 1 := by
    have h := Real.sin_sq_add_cos_sq θ
    linear_combination h
  unfold GeometryUtils.polygonArea
  rw [rotatePoint_eq_affine θ c, shoelaceSum_map_affine, hdet, one_mul]

lemma polygonArea_map_translate (dx dy : ℝ) (ps : List Point) :
    GeometryUtils.polygonArea (ps.map (translatePoint dx dy)) =
      GeometryUtils.polygonArea ps := by
  have hdet : (1 : ℝ) * 1 - 0 * 0 = 1 := by norm_num
  unfold GeometryUtils.polygonArea
  rw [translatePoint_eq_affine dx dy, shoelaceSum_map_affine, hdet, one_mul]

lemma polygonArea_map_scale (k : ℝ) (c : Point) (ps : List Point) :
    GeometryUtils.polygonArea (ps.map (scalePoint k c)) =
      k ^ 2 * GeometryUtils.polygonArea ps := by
  have hdet : k * k - (0 : ℝ) * 0 = k ^ 2 := by ring
  unfold GeometryUtils.polygonArea
  rw [scalePoint_eq_affine k c, shoelaceSum_map_affine, hdet, mul_div_assoc,
      abs_mul, abs_of_nonneg (sq_nonneg k)]

/-- C6: applying the same rotation (as in `Shape.rotate`) or the same
translation (as in `Shape.translate`) to all vertices leaves
`GeometryUtils.polygonArea` and `GeometryUtils.polygonPerimeter` unchanged,
in exact real arithmetic, for every vertex list, angle, rotation center and
translation offset. -/
theorem c6_area_perimeter_rotation_translation_invariant
    (ps : List Point) (θ dx dy : ℝ) (c : Point) :
    GeometryUtils.polygonArea (ps.map (rotatePoint θ c)) =
        GeometryUtils.polygonArea ps ∧
      GeometryUtils.polygonPerimeter (ps.map (rotatePoint θ c)) =
        GeometryUtils.polygonPerimeter ps ∧
      GeometryUtils.polygonArea (ps.map (translatePoint dx dy)) =
        GeometryUtils.polygonArea ps ∧
      GeometryUtils.polygonPerimeter (ps.map (translatePoint dx dy)) =
        GeometryUtils.polygonPerimeter ps := by
  refine ⟨polygonArea_map_rotate θ c ps, ?_, polygonArea_map_translate dx dy ps, ?_⟩
  · have h := polygonPerimeter_map_of_dist (rotatePoint θ c) 1
      (fun p q => by rw [distanceTo_rotate, one_mul]) ps
    rwa [one_mul] at h
  · have h := polygonPerimeter_map_of_dist (translatePoint dx dy) 1
      (fun p q => by rw [distanceTo_translate, one_mul]) ps
    rwa [one_mul] at h

/-- C10: after `Shape.scale(f, center)` with a positive factor `f`, the
perimeter of the vertex list is `f` times its previous value and the
shoelace area is `f^2` times its previous value, in exact real arithmetic. -/
theorem c10_scale_perimeter_area (ps : List Point) (f : ℝ) (c : Point)
    (hf : 0 < f) :
    GeometryUtils.polygonPerimeter (ps.map (scalePoint f c)) =
        f * GeometryUtils.polygonPerimeter ps ∧
      GeometryUtils.polygonArea (ps.map (scalePoint f c)) =
        f ^ 2 * GeometryUtils.polygonArea ps :=
  ⟨polygonPerimeter_map_of_dist (scalePoint f c) f
      (fun p q => distanceTo_scale f hf c p q) ps,
    polygonArea_map_scale f c ps⟩

/-- Witness for C10 at the concrete triangle `(0,0), (4,0), (0,3)`,
factor `2`, center `(0,0)`. -/
theorem c10_scale_perimeter_area_witness :
    (0 : ℝ) < 2 ∧
      (GeometryUtils.polygonPerimeter
            ([⟨0, 0⟩, ⟨4, 0⟩, ⟨0, 3⟩].map (scalePoint 2 ⟨0, 0⟩)) =
          2 * GeometryUtils.polygonPerimeter [⟨0, 0⟩, ⟨4, 0⟩, ⟨0, 3⟩] ∧
        GeometryUtils.polygonArea
            ([⟨0, 0⟩, ⟨4, 0⟩, ⟨0, 3⟩].map (scalePoint 2 ⟨0, 0⟩)) =
          2 ^ 2 * GeometryUtils.polygonArea [⟨0, 0⟩, ⟨4, 0⟩, ⟨0, 3⟩]) :=
  ⟨by norm_num,
    c10_scale_perimeter_area [⟨0, 0⟩, ⟨4, 0⟩, ⟨0, 3⟩] 2 ⟨0, 0⟩ (by norm_num)⟩

-- ============================================================================
-- shapes-2d : Triangle constraint solvers
-- ============================================================================

/-- The `center` computed by `Triangle._applyEquilateralConstraint`: 2/3 of
the way from the dragged vertex to the opposite-edge midpoint
(`other1 = (idx+1) % 3`, `other2 = (idx+2) % 3`). -/
def equilateralCenter (ps : Fin 3 → Point) (idx : Fin 3) : Point :=
  ⟨(ps idx).x + ((Point.midpoint (ps (idx + 1)) (ps (idx + 2))).x - (ps idx).x) * (2 / 3),
   (ps idx).y + ((Point.midpoint (ps (idx + 1)) (ps (idx + 2))).y - (ps idx).y) * (2 / 3)⟩

/-- The circumradius `radius = draggedPoint.distanceTo(center)` of
`Triangle._applyEquilateralConstraint`. -/
def equilateralRadius (ps : Fin 3 → Point) (idx : Fin 3) : ℝ :=
  (ps idx).distanceTo (equilateralCenter ps idx)

/-- The `draggedAngle = Math.atan2(...)` of
`Triangle._applyEquilateralConstraint`. -/
def equilateralAngle (ps : Fin 3 → Point) (idx : Fin 3) : ℝ :=
  atan2 ((ps idx).y - (equilateralCenter ps idx).y)
    ((ps idx).x - (equilateralCenter ps idx).x)

/-- `Triangle._applyEquilateralConstraint(idx)`: if the dragged vertex is
closer than 20 to the opposite-edge midpoint (`heightDist < 20`) the solver
returns without mutating; otherwise all three vertices are rebuilt on the
circumcircle at 120-degree spacing (offset `((i - idx + 3) % 3) * 2π/3`,
written here as `(i + 3 - idx) % 3` in ℕ), anchored at the dragged vertex
angle. -/
def applyEquilateralConstraint (ps : Fin 3 → Point) (idx : Fin 3) :
    Fin 3 → Point :=
  if (ps idx).distanceTo (Point.midpoint (ps (idx + 1)) (ps (idx + 2))) < 20
  then ps
  else fun i =>
    ⟨(equilateralCenter ps idx).x + equilateralRadius ps idx *
        Real.cos (equilateralAngle ps idx +
          (((i.val + 3 - idx.val) % 3 : ℕ) : ℝ) * (2 * π / 3)),
     (equilateralCenter ps idx).y + equilateralRadius ps idx *
        Real.sin (equilateralAngle ps idx +
          (((i.val + 3 - idx.val) % 3 : ℕ) : ℝ) * (2 * π / 3))⟩

/-- `Triangle._applyIsoscelesConstraint(idx)`.  Dragging the apex (index 0)
sets both legs to their average length along their existing directions
(guarded by `axisLen < 10`); dragging a base vertex mirrors it across the
apex-to-base-midpoint axis (with a perpendicular fallback axis when that
axis is shorter than 1, and a final `axisLen < 0.001` guard). -/
def applyIsoscelesConstraint (ps : Fin 3 → Point) (idx : Fin 3) :
    Fin 3 → Point :=
  if idx = 0 then
    let midBase := Point.midpoint (ps 1) (ps 2)
    let axisDir := Vec.fromPoints midBase (ps 0)
    let axisLen := axisDir.length
    if axisLen < 10 then ps
    else
      let distAB := (ps 0).distanceTo (ps 1)
      let distAC := (ps 0).distanceTo (ps 2)
      let avgDist := (distAB + distAC) / 2
      let move : Point → Point := fun q =>
        let dir := (Vec.fromPoints (ps 0) q).normalize
        if 0 < dir.length then
          ⟨(ps 0).x + dir.x * avgDist, (ps 0).y + dir.y * avgDist⟩
        else q
      Function.update (Function.update ps 1 (move (ps 1))) 2 (move (ps 2))
  else
    let other : Fin 3 := if idx = 1 then 2 else 1
    let apex := ps 0
    let draggedPoint := ps idx
    let currentMid := Point.midpoint (ps 1) (ps 2)
    let axisDir0 := Vec.fromPoints apex currentMid
    let axisDir : Vec :=
      if axisDir0.length < 1 then
        let dragDir := Vec.fromPoints apex draggedPoint
        ⟨-dragDir.y, dragDir.x⟩
      else axisDir0
    let axisLen := axisDir.length
    if axisLen < 0.001 then ps
    else
      let axisUnit := axisDir.normalize
      let toPoint := Vec.fromPoints apex draggedPoint
      let projLength := toPoint.x * axisUnit.x + toPoint.y * axisUnit.y
      let perpLength := toPoint.x * (-axisUnit.y) + toPoint.y * axisUnit.x
      Function.update ps other
        ⟨apex.x + projLength * axisUnit.x - perpLength * (-axisUnit.y),
         apex.y + projLength * axisUnit.y - perpLength * axisUnit.x⟩

/-- `Triangle._applyRightConstraint(idx)`: only reacts when the right-angle
vertex (index 0) is dragged; vertex 2 is placed along the normalized
perpendicular of leg 0→1, preserving the length of leg 0→2.  There is no
degeneracy guard: when leg 0→1 is zero, `normalize` yields the zero vector
and vertex 2 is overwritten with vertex 0. -/
def applyRightConstraint (ps : Fin 3 → Point) (idx : Fin 3) : Fin 3 → Point :=
  if idx = 0 then
    let v1 := Vec.fromPoints (ps 0) (ps 1)
    let v2 := Vec.fromPoints (ps 0) (ps 2)
    let perpendicular : Vec := ⟨-v1.y, v1.x⟩
    let len2 := v2.length
    let norm := perpendicular.normalize
    Function.update ps 2
      ⟨(ps 0).x + norm.x * len2, (ps 0).y + norm.y * len2⟩
  else ps

/-- `Triangle.applyConstraints(draggedIndex)`: early return for subkind
`any`, otherwise the switch over `triangleType` (unknown subkinds fall
through the switch unchanged). -/
def Triangle.applyConstraints (triangleType : String) (ps : Fin 3 → Point)
    (idx : Fin 3) : Fin 3 → Point :=
  if triangleType = "any" then ps
  else if triangleType = "equilateral" then applyEquilateralConstraint ps idx
  else if triangleType = "isosceles" then applyIsoscelesConstraint ps idx
  else if triangleType = "right" then applyRightConstraint ps idx
  else ps

-- ============================================================================
-- shapes-2d : Quadrilateral constraint solvers
-- ============================================================================

/-- `Quadrilateral._applyParallelogramConstraint(idx)`: reflects the vertex
after the dragged one through the center of the dragged diagonal; only
`points[(idx + 3) % 4]` is assigned. -/
def applyParallelogramConstraint (ps : Fin 4 → Point) (idx : Fin 4) :
    Fin 4 → Point :=
  let opposite := idx + 2
  let prev := idx + 3
  let next := idx + 1
  let center := Point.midpoint (ps idx) (ps opposite)
  Function.update ps prev
    ⟨2 * center.x - (ps next).x, 2 * center.y - (ps next).y⟩

/-- `Quadrilateral._applyRectangleConstraint(idx)`. -/
def applyRectangleConstraint (ps : Fin 4 → Point) (idx : Fin 4) :
    Fin 4 → Point :=
  let opposite := idx + 2
  let prev := idx + 3
  let next := idx + 1
  let center := Point.midpoint (ps idx) (ps opposite)
  let dx := (ps idx).x - center.x
  let dy := (ps idx).y - center.y
  Function.update
    (Function.update
      (Function.update ps opposite ⟨center.x - dx, center.y - dy⟩)
      next ⟨center.x - dy, center.y + dx⟩)
    prev ⟨center.x + dy, center.y - dx⟩

/-- `Quadrilateral._applySquareConstraint(idx)`: normalizes the half
diagonal `(dx, dy)` by `dist = Math.sqrt(dx*dx + dy*dy)` with no zero
check, then rewrites the other three vertices.  When the dragged vertex
coincides with the diagonal midpoint, `dist = 0` and `dx / dist` is a raw
division by zero (NaN in JavaScript; 0 in this total embedding) — in both
semantics the solver mutates vertices instead of rejecting the edit. -/
def applySquareConstraint (ps : Fin 4 → Point) (idx : Fin 4) :
    Fin 4 → Point :=
  let opposite := idx + 2
  let prev := idx + 3
  let next := idx + 1
  let center := Point.midpoint (ps idx) (ps opposite)
  let dx := (ps idx).x - center.x
  let dy := (ps idx).y - center.y
  let dist := Real.sqrt (dx * dx + dy * dy)
  let ndx := dx / dist
  let ndy := dy / dist
  Function.update
    (Function.update
      (Function.update ps opposite
        ⟨center.x - ndx * dist, center.y - ndy * dist⟩)
      next ⟨center.x - ndy * dist, center.y + ndx * dist⟩)
    prev ⟨center.x + ndy * dist, center.y - ndx * dist⟩

/-- `Quadrilateral._applyRhombusConstraint(idx)` (the other-diagonal update
is guarded by `perpLen > 0`). -/
def applyRhombusConstraint (ps : Fin 4 → Point) (idx : Fin 4) :
    Fin 4 → Point :=
  let opposite := idx + 2
  let prev := idx + 3
  let next := idx + 1
  let center := Point.midpoint (ps idx) (ps opposite)
  let dx := (ps idx).x - center.x
  let dy := (ps idx).y - center.y
  let ps1 := Function.update ps opposite ⟨center.x - dx, center.y - dy⟩
  let otherDist := (ps next).distanceTo center
  let perpDx := -dy
  let perpDy := dx
  let perpLen := Real.sqrt (perpDx * perpDx + perpDy * perpDy)
  if 0 < perpLen then
    Function.update
      (Function.update ps1 next
        ⟨center.x + perpDx / perpLen * otherDist,
         center.y + perpDy / perpLen * otherDist⟩)
      prev
      ⟨center.x - perpDx / perpLen * otherDist,
       center.y - perpDy / perpLen * otherDist⟩
  else ps1

/-- The length of the bottom edge vector `points[2] - points[3]` used by
the trapezoid solver (`dcLen`). -/
def trapDcLen (ps : Fin 4 → Point) : ℝ :=
  Real.sqrt (((ps 2).x - (ps 3).x) * ((ps 2).x - (ps 3).x) +
    ((ps 2).y - (ps 3).y) * ((ps 2).y - (ps 3).y))

/-- `Quadrilateral._applyTrapezoidConstraint(idx)`: when a bottom vertex
(`idx >= 2`) is dragged and the bottom edge is non-degenerate, vertices 0
and 1 are re-laid out around the current top midpoint along the bottom
edge direction, with half the current top edge length on each side. -/
def applyTrapezoidConstraint (ps : Fin 4 → Point) (idx : Fin 4) :
    Fin 4 → Point :=
  if 2 ≤ idx.val then
    let dcx := (ps 2).x - (ps 3).x
    let dcy := (ps 2).y - (ps 3).y
    let dcLen := trapDcLen ps
    if 0 < dcLen then
      let abLen := (ps 0).distanceTo (ps 1)
      let ux := dcx / dcLen
      let uy := dcy / dcLen
      let abMid := Point.midpoint (ps 0) (ps 1)
      Function.update
        (Function.update ps 0
          ⟨abMid.x - ux * abLen / 2, abMid.y - uy * abLen / 2⟩)
        1 ⟨abMid.x + ux * abLen / 2, abMid.y + uy * abLen / 2⟩
    else ps
  else ps

/-- `Quadrilateral._applyKiteConstraint(idx)`. -/
def applyKiteConstraint (ps : Fin 4 → Point) (idx : Fin 4) : Fin 4 → Point :=
  if idx = 0 then
    let distAB := (ps 0).distanceTo (ps 1)
    let distAD := (ps 0).distanceTo (ps 3)
    let avgDist := (distAB + distAD) / 2
    let move : Point → Point := fun q =>
      let dir := (Vec.fromPoints (ps 0) q).normalize
      ⟨(ps 0).x + dir.x * avgDist, (ps 0).y + dir.y * avgDist⟩
    Function.update (Function.update ps 1 (move (ps 1))) 3 (move (ps 3))
  else if idx = 2 then
    let distCB := (ps 2).distanceTo (ps 1)
    let distCD := (ps 2).distanceTo (ps 3)
    let avgDist := (distCB + distCD) / 2
    let move : Point → Point := fun q =>
      let dir := (Vec.fromPoints (ps 2) q).normalize
      ⟨(ps 2).x + dir.x * avgDist, (ps 2).y + dir.y * avgDist⟩
    Function.update (Function.update ps 1 (move (ps 1))) 3 (move (ps 3))
  else
    let other : Fin 4 := if idx = 1 then 3 else 1
    let acMid := Point.midpoint (ps 0) (ps 2)
    let acDir := Vec.fromPoints (ps 0) (ps 2)
    let acLen := acDir.length
    if 0 < acLen then
      let perpDir : Vec := ⟨-acDir.y / acLen, acDir.x / acLen⟩
      let toPoint : Vec := ⟨(ps idx).x - acMid.x, (ps idx).y - acMid.y⟩
      let projOnPerp := toPoint.x * perpDir.x + toPoint.y * perpDir.y
      Function.update ps other
        ⟨(ps idx).x - 2 * projOnPerp * perpDir.x,
         (ps idx).y - 2 * projOnPerp * perpDir.y⟩
    else ps

/-- `Quadrilateral.applyConstraints(draggedIndex)`: early return for
subkind `any`, otherwise the switch over `quadType`. -/
def Quadrilateral.applyConstraints (quadType : String) (ps : Fin 4 → Point)
    (idx : Fin 4) : Fin 4 → Point :=
  if quadType = "any" then ps
  else if quadType = "parallelogram" then applyParallelogramConstraint ps idx
  else if quadType = "rectangle" then applyRectangleConstraint ps idx
  else if quadType = "square" then applySquareConstraint ps idx
  else if quadType = "rhombus" then applyRhombusConstraint ps idx
  else if quadType = "trapezoid" then applyTrapezoidConstraint ps idx
  else if quadType = "kite" then applyKiteConstraint ps idx
  else ps

-- ============================================================================
-- C8 : parallelogram solver frame effect
-- ============================================================================

/-- C8: for every parallelogram and every dragged index, `applyConstraints`
mutates only the vertex at `(draggedIndex + 3) % 4`: the dragged vertex and
the vertices at `(draggedIndex + 1) % 4` and `(draggedIndex + 2) % 4` keep
their coordinates. -/
theorem c8_parallelogram_frame_effect (ps : Fin 4 → Point) (idx : Fin 4) :
    Quadrilateral.applyConstraints "parallelogram" ps idx idx = ps idx ∧
      Quadrilateral.applyConstraints "parallelogram" ps idx (idx + 1) =
        ps (idx + 1) ∧
      Quadrilateral.applyConstraints "parallelogram" ps idx (idx + 2) =
        ps (idx + 2) := by
  have h0 : idx ≠ idx + 3 := by fin_cases idx <;> decide
  have h1 : idx + 1 ≠ idx + 3 := by fin_cases idx <;> decide
  have h2 : idx + 2 ≠ idx + 3 := by fin_cases idx <;> decide
  unfold Quadrilateral.applyConstraints
  rw [if_neg (by decide), if_pos rfl]
  unfold applyParallelogramConstraint
  exact ⟨Function.update_noteq h0 _ ps, Function.update_noteq h1 _ ps,
    Function.update_noteq h2 _ ps⟩

-- ============================================================================
-- C1 : missing degenerate-input guards in the square and right solvers
-- ============================================================================

/-- A degenerate square drag: the dragged vertex 0 coincides with the
opposite vertex 2, hence with the diagonal midpoint. -/
def c1SquarePts : Fin 4 → Point := ![⟨0, 0⟩, ⟨1, 0⟩, ⟨0, 0⟩, ⟨-1, 0⟩]

/-- A degenerate right-triangle drag: the first leg 0→1 has zero length. -/
def c1RightPts : Fin 3 → Point := ![⟨0, 0⟩, ⟨0, 0⟩, ⟨5, 0⟩]

/-- C1 fails on the code: at the degenerate inputs singled out by the claim
the solvers do not return without mutating.  The square solver divides the
half-diagonal by `dist = 0` (NaN in JavaScript; in this total embedding the
quotient is 0) and overwrites vertex 1, and the right-triangle solver
overwrites vertex 2 with vertex 0.  In both cases a vertex changes, so the
required detect-and-return behaviour is absent. -/
theorem c1_degenerate_guard_missing :
    Quadrilateral.applyConstraints "square" c1SquarePts 0 1 ≠ c1SquarePts 1 ∧
      Triangle.applyConstraints "right" c1RightPts 0 2 ≠ c1RightPts 2 := by
  constructor
  · unfold Quadrilateral.applyConstraints
    rw [if_neg (by decide), if_neg (by decide), if_neg (by decide), if_pos rfl]
    unfold applySquareConstraint
    simp only [c1SquarePts, Point.midpoint]
    norm_num [Function.update, Point.mk.injEq]
  · unfold Triangle.applyConstraints
    rw [if_neg (by decide), if_neg (by decide), if_neg (by decide), if_pos rfl]
    unfold applyRightConstraint
    rw [if_pos rfl]
    simp only [c1RightPts, Vec.fromPoints, Vec.normalize, Vec.length]
    norm_num [Function.update, Point.mk.injEq]

-- ============================================================================
-- C4 : trapezoid solver
-- ============================================================================

/-- A trapezoid whose top edge (length 2) differs from its bottom edge
(length 10); the bottom vertex 2 is "dragged" in place. -/
def c4Pts : Fin 4 → Point := ![⟨0, 0⟩, ⟨2, 0⟩, ⟨10, 10⟩, ⟨0, 10⟩]

lemma sqrt_four : Real.sqrt 4 = 2 := by
  rw [show (4 : ℝ) = 2 ^ 2 by norm_num, Real.sqrt_sq (by norm_num)]

lemma sqrt_hundred : Real.sqrt 100 = 10 := by
  rw [show (100 : ℝ) = 10 ^ 2 by norm_num, Real.sqrt_sq (by norm_num)]

lemma c4_dcLen : trapDcLen c4Pts = 10 := by
  unfold trapDcLen
  have e2 : c4Pts 2 = ⟨10, 10⟩ := rfl
  have e3 : c4Pts 3 = ⟨0, 10⟩ := rfl
  rw [e2, e3]
  norm_num [sqrt_hundred]

lemma c4_eval : Quadrilateral.applyConstraints "trapezoid" c4Pts 2 =
    Function.update (Function.update c4Pts 0 ⟨0, 0⟩) 1 ⟨2, 0⟩ := by
  unfold Quadrilateral.applyConstraints
  rw [if_neg (by decide), if_neg (by decide), if_neg (by decide),
      if_neg (by decide), if_neg (by decide), if_pos rfl]
  unfold applyTrapezoidConstraint
  rw [if_pos (by decide), if_pos (c4_dcLen ▸ (by norm_num : (0:ℝ) < 10))]
  have e0 : c4Pts 0 = ⟨0, 0⟩ := rfl
  have e1 : c4Pts 1 = ⟨2, 0⟩ := rfl
  have e2 : c4Pts 2 = ⟨10, 10⟩ := rfl
  have e3 : c4Pts 3 = ⟨0, 10⟩ := rfl
  have hab : (c4Pts 0).distanceTo (c4Pts 1) = 2 := by
    rw [e0, e1]
    unfold Point.distanceTo
    norm_num [sqrt_four]
  rw [hab, c4_dcLen, e0, e1, e2, e3]
  unfold Point.midpoint
  norm_num

/-- C4 fails on the code: after dragging bottom vertex 2 of `c4Pts` the top
edge 0→1 has length 2 (its own previous length) while the bottom edge 3→2
has length 10, so the rebuilt top edge is parallel to the bottom edge but
not congruent to it. -/
theorem c4_counterexample :
    ¬ ((Quadrilateral.applyConstraints "trapezoid" c4Pts 2 0).distanceTo
        (Quadrilateral.applyConstraints "trapezoid" c4Pts 2 1) =
      (Quadrilateral.applyConstraints "trapezoid" c4Pts 2 3).distanceTo
        (Quadrilateral.applyConstraints "trapezoid" c4Pts 2 2)) := by
  have a0 : Quadrilateral.applyConstraints "trapezoid" c4Pts 2 0 = ⟨0, 0⟩ := by
    rw [c4_eval, Function.update_noteq (by decide), Function.update_same]
  have a1 : Quadrilateral.applyConstraints "trapezoid" c4Pts 2 1 = ⟨2, 0⟩ := by
    rw [c4_eval, Function.update_same]
  have a2 : Quadrilateral.applyConstraints "trapezoid" c4Pts 2 2 = ⟨10, 10⟩ := by
    rw [c4_eval, Function.update_noteq (by decide),
        Function.update_noteq (by decide)]
    rfl
  have a3 : Quadrilateral.applyConstraints "trapezoid" c4Pts 2 3 = ⟨0, 10⟩ := by
    rw [c4_eval, Function.update_noteq (by decide),
        Function.update_noteq (by decide)]
    rfl
  rw [a0, a1, a2, a3]
  unfold Point.distanceTo
  norm_num [sqrt_four, sqrt_hundred]

/-- C4, amended: with a bottom vertex dragged and a non-degenerate bottom
edge, the trapezoid solver leaves vertices 2 and 3 unchanged and rebuilds
the edge 0→1 parallel to the edge 3→2 and centered on the old top midpoint,
with the top edge keeping its own previous length (not the bottom edge
length). -/
theorem c4_trapezoid_parallel_top (ps : Fin 4 → Point) (idx : Fin 4)
    (hidx : 2 ≤ idx.val) (hdc : 0 < trapDcLen ps) :
    let after := Quadrilateral.applyConstraints "trapezoid" ps idx
    (((after 1).x - (after 0).x) * ((ps 2).y - (ps 3).y) -
        ((after 1).y - (after 0).y) * ((ps 2).x - (ps 3).x) = 0) ∧
      (after 0).distanceTo (after 1) = (ps 0).distanceTo (ps 1) ∧
      Point.midpoint (after 0) (after 1) = Point.midpoint (ps 0) (ps 1) ∧
      after 2 = ps 2 ∧ after 3 = ps 3 := by
  intro after
  have hdc' : trapDcLen ps ≠ 0 := ne_of_gt hdc
  have hsq : trapDcLen ps * trapDcLen ps =
      ((ps 2).x - (ps 3).x) * ((ps 2).x - (ps 3).x) +
        ((ps 2).y - (ps 3).y) * ((ps 2).y - (ps 3).y) := by
    unfold trapDcLen
    exact Real.mul_self_sqrt (sq_nonneg_sum _ _)
  set L := (ps 0).distanceTo (ps 1) with hL
  have hL0 : 0 ≤ L := by rw [hL]; exact Real.sqrt_nonneg _
  have hafter : after = Function.update
      (Function.update ps 0
        ⟨(Point.midpoint (ps 0) (ps 1)).x -
            ((ps 2).x - (ps 3).x) / trapDcLen ps * L / 2,
         (Point.midpoint (ps 0) (ps 1)).y -
            ((ps 2).y - (ps 3).y) / trapDcLen ps * L / 2⟩)
      1 ⟨(Point.midpoint (ps 0) (ps 1)).x +
            ((ps 2).x - (ps 3).x) / trapDcLen ps * L / 2,
         (Point.midpoint (ps 0) (ps 1)).y +
            ((ps 2).y - (ps 3).y) / trapDcLen ps * L / 2⟩ := by
    show Quadrilateral.applyConstraints "trapezoid" ps idx = _
    unfold Quadrilateral.applyConstraints
    rw [if_neg (by decide), if_neg (by decide), if_neg (by decide),
        if_neg (by decide), if_neg (by decide), if_pos rfl]
    unfold applyTrapezoidConstraint
    rw [if_pos hidx, if_pos hdc]
  have e0 : after 0 = ⟨(Point.midpoint (ps 0) (ps 1)).x -
      ((ps 2).x - (ps 3).x) / trapDcLen ps * L / 2,
      (Point.midpoint (ps 0) (ps 1)).y -
      ((ps 2).y - (ps 3).y) / trapDcLen ps * L / 2⟩ := by
    rw [hafter, Function.update_noteq (by decide), Function.update_same]
  have e1 : after 1 = ⟨(Point.midpoint (ps 0) (ps 1)).x +
      ((ps 2).x - (ps 3).x) / trapDcLen ps * L / 2,
      (Point.midpoint (ps 0) (ps 1)).y +
      ((ps 2).y - (ps 3).y) / trapDcLen ps * L / 2⟩ := by
    rw [hafter, Function.update_same]
  have e2 : after 2 = ps 2 := by
    rw [hafter, Function.update_noteq (by decide),
        Function.update_noteq (by decide)]
  have e3 : after 3 = ps 3 := by
    rw [hafter, Function.update_noteq (by decide),
        Function.update_noteq (by decide)]
  refine ⟨?_, ?_, ?_, e2, e3⟩
  · rw [e0, e1]
    dsimp only
    ring
  · rw [e0, e1]
    unfold Point.distanceTo
    dsimp only
    have hinner : ((Point.midpoint (ps 0) (ps 1)).x +
        ((ps 2).x - (ps 3).x) / trapDcLen ps * L / 2 -
        ((Point.midpoint (ps 0) (ps 1)).x -
        ((ps 2).x - (ps 3).x) / trapDcLen ps * L / 2)) *
        ((Point.midpoint (ps 0) (ps 1)).x +
        ((ps 2).x - (ps 3).x) / trapDcLen ps * L / 2 -
        ((Point.midpoint (ps 0) (ps 1)).x -
        ((ps 2).x - (ps 3).x) / trapDcLen ps * L / 2)) +
        ((Point.midpoint (ps 0) (ps 1)).y +
        ((ps 2).y - (ps 3).y) / trapDcLen ps * L / 2 -
        ((Point.midpoint (ps 0) (ps 1)).y -
        ((ps 2).y - (ps 3).y) / trapDcLen ps * L / 2)) *
        ((Point.midpoint (ps 0) (ps 1)).y +
        ((ps 2).y - (ps 3).y) / trapDcLen ps * L / 2 -
        ((Point.midpoint (ps 0) (ps 1)).y -
        ((ps 2).y - (ps 3).y) / trapDcLen ps * L / 2)) = L * L := by
      have key : (((ps 2).x - (ps 3).x) * ((ps 2).x - (ps 3).x) +
            ((ps 2).y - (ps 3).y) * ((ps 2).y - (ps 3).y)) /
            trapDcLen ps / trapDcLen ps = 1 := by
        rw [← hsq]
        field_simp
      calc ((Point.midpoint (ps 0) (ps 1)).x +
          ((ps 2).x - (ps 3).x) / trapDcLen ps * L / 2 -
          ((Point.midpoint (ps 0) (ps 1)).x -
          ((ps 2).x - (ps 3).x) / trapDcLen ps * L / 2)) *
          ((Point.midpoint (ps 0) (ps 1)).x +
          ((ps 2).x - (ps 3).x) / trapDcLen ps * L / 2 -
          ((Point.midpoint (ps 0) (ps 1)).x -
          ((ps 2).x - (ps 3).x) / trapDcLen ps * L / 2)) +
          ((Point.midpoint (ps 0) (ps 1)).y +
          ((ps 2).y - (ps 3).y) / trapDcLen ps * L / 2 -
          ((Point.midpoint (ps 0) (ps 1)).y -
          ((ps 2).y - (ps 3).y) / trapDcLen ps * L / 2)) *
          ((Point.midpoint (ps 0) (ps 1)).y +
          ((ps 2).y - (ps 3).y) / trapDcLen ps * L / 2 -
          ((Point.midpoint (ps 0) (ps 1)).y -
          ((ps 2).y - (ps 3).y) / trapDcLen ps * L / 2))
          = (((ps 2).x - (ps 3).x) * ((ps 2).x - (ps 3).x) +
              ((ps 2).y - (ps 3).y) * ((ps 2).y - (ps 3).y)) /
              trapDcLen ps / trapDcLen ps * (L * L) := by ring
        _ = L * L := by rw [key, one_mul]
    rw [hinner, Real.sqrt_mul_self hL0]
  · rw [e0, e1]
    unfold Point.midpoint
    dsimp only
    simp only [Point.mk.injEq]
    exact ⟨by ring, by ring⟩

/-- Witness for the amended C4 theorem: a concrete trapezoid with bottom
vertex 3 dragged. -/
theorem c4_trapezoid_parallel_top_witness :
    2 ≤ (3 : Fin 4).val ∧ 0 < trapDcLen ![⟨0, 0⟩, ⟨2, 0⟩, ⟨10, 10⟩, ⟨0, 10⟩] ∧
      (let after := Quadrilateral.applyConstraints "trapezoid"
          ![⟨0, 0⟩, ⟨2, 0⟩, ⟨10, 10⟩, ⟨0, 10⟩] 3
       (((after 1).x - (after 0).x) * ((10 : ℝ) - 10) -
          ((after 1).y - (after 0).y) * ((10 : ℝ) - 0) = 0) ∧
        (after 0).distanceTo (after 1) =
          (Point.mk 0 0).distanceTo (Point.mk 2 0) ∧
        Point.midpoint (after 0) (after 1) =
          Point.midpoint (Point.mk 0 0) (Point.mk 2 0) ∧
        after 2 = Point.mk 10 10 ∧ after 3 = Point.mk 0 10) := by
  have hdc : 0 < trapDcLen ![⟨0, 0⟩, ⟨2, 0⟩, ⟨10, 10⟩, ⟨0, 10⟩] := by
    show (0 : ℝ) < trapDcLen c4Pts
    rw [c4_dcLen]
    norm_num
  refine ⟨by decide, hdc, ?_⟩
  have h := c4_trapezoid_parallel_top ![⟨0, 0⟩, ⟨2, 0⟩, ⟨10, 10⟩, ⟨0, 10⟩] 3
    (by decide) hdc
  exact h

-- ============================================================================
-- C2 : equilateral drag scenario — trigonometric groundwork
-- ============================================================================

lemma cos_two_pi_div_three : Real.cos (2 * π / 3) = -(1 / 2) := by
  rw [show (2 * π / 3 : ℝ) = π - π / 3 by ring, Real.cos_pi_sub,
      Real.cos_pi_div_three]

lemma sin_two_pi_div_three : Real.sin (2 * π / 3) = Real.sqrt 3 / 2 := by
  rw [show (2 * π / 3 : ℝ) = π - π / 3 by ring, Real.sin_pi_sub,
      Real.sin_pi_div_three]

lemma cos_four_pi_div_three : Real.cos (4 * π / 3) = -(1 / 2) := by
  rw [show (4 * π / 3 : ℝ) = 2 * π - 2 * π / 3 by ring, Real.cos_two_pi_sub,
      cos_two_pi_div_three]

lemma sin_four_pi_div_three : Real.sin (4 * π / 3) = -(Real.sqrt 3 / 2) := by
  rw [show (4 * π / 3 : ℝ) = 2 * π - 2 * π / 3 by ring, Real.sin_two_pi_sub,
      sin_two_pi_div_three]

/-- Distance between two points of a common circle, in terms of the angle
difference. -/
lemma dist_circle_points (cx cy r α β : ℝ) :
    (Point.mk (cx + r * Real.cos α) (cy + r * Real.sin α)).distanceTo
      (Point.mk (cx + r * Real.cos β) (cy + r * Real.sin β)) =
    Real.sqrt (r * r * (2 - 2 * Real.cos (β - α))) := by
  unfold Point.distanceTo
  dsimp only
  congr 1
  have hc := Real.cos_sub β α
  have h1 := Real.sin_sq_add_cos_sq α
  have h2 := Real.sin_sq_add_cos_sq β
  linear_combination (r * r) * h1 + (r * r) * h2 + (2 * (r * r)) * hc

/-- Three points on a circle at angular offsets 0, 2π/3 and 4π/3 form an
equilateral triangle of side `√(3 r²)`, and its shoelace area equals
`(√3 / 4)` times the squared side — exactly, in real arithmetic. -/
lemma equilateral_reproj (cx cy r θ₀ θ₁ θ₂ : ℝ)
    (h1 : θ₁ = θ₀ + 2 * π / 3) (h2 : θ₂ = θ₀ + 4 * π / 3) :
    (Point.mk (cx + r * Real.cos θ₀) (cy + r * Real.sin θ₀)).distanceTo
        (Point.mk (cx + r * Real.cos θ₁) (cy + r * Real.sin θ₁)) =
      (Point.mk (cx + r * Real.cos θ₁) (cy + r * Real.sin θ₁)).distanceTo
        (Point.mk (cx + r * Real.cos θ₂) (cy + r * Real.sin θ₂)) ∧
    (Point.mk (cx + r * Real.cos θ₁) (cy + r * Real.sin θ₁)).distanceTo
        (Point.mk (cx + r * Real.cos θ₂) (cy + r * Real.sin θ₂)) =
      (Point.mk (cx + r * Real.cos θ₂) (cy + r * Real.sin θ₂)).distanceTo
        (Point.mk (cx + r * Real.cos θ₀) (cy + r * Real.sin θ₀)) ∧
    GeometryUtils.polygonArea
        [Point.mk (cx + r * Real.cos θ₀) (cy + r * Real.sin θ₀),
         Point.mk (cx + r * Real.cos θ₁) (cy + r * Real.sin θ₁),
         Point.mk (cx + r * Real.cos θ₂) (cy + r * Real.sin θ₂)] =
      Real.sqrt 3 / 4 *
        ((Point.mk (cx + r * Real.cos θ₀) (cy + r * Real.sin θ₀)).distanceTo
            (Point.mk (cx + r * Real.cos θ₁) (cy + r * Real.sin θ₁)) *
          (Point.mk (cx + r * Real.cos θ₀) (cy + r * Real.sin θ₀)).distanceTo
            (Point.mk (cx + r * Real.cos θ₁) (cy + r * Real.sin θ₁))) := by
  have d01 : (Point.mk (cx + r * Real.cos θ₀) (cy + r * Real.sin θ₀)).distanceTo
      (Point.mk (cx + r * Real.cos θ₁) (cy + r * Real.sin θ₁)) =
      Real.sqrt (r * r * 3) := by
    rw [dist_circle_points]
    congr 1
    rw [show θ₁ - θ₀ = 2 * π / 3 by rw [h1]; ring, cos_two_pi_div_three]
    ring
  have d12 : (Point.mk (cx + r * Real.cos θ₁) (cy + r * Real.sin θ₁)).distanceTo
      (Point.mk (cx + r * Real.cos θ₂) (cy + r * Real.sin θ₂)) =
      Real.sqrt (r * r * 3) := by
    rw [dist_circle_points]
    congr 1
    rw [show θ₂ - θ₁ = 2 * π / 3 by rw [h1, h2]; ring, cos_two_pi_div_three]
    ring
  have d20 : (Point.mk (cx + r * Real.cos θ₂) (cy + r * Real.sin θ₂)).distanceTo
      (Point.mk (cx + r * Real.cos θ₀) (cy + r * Real.sin θ₀)) =
      Real.sqrt (r * r * 3) := by
    rw [dist_circle_points]
    congr 1
    rw [show θ₀ - θ₂ = -(4 * π / 3) by rw [h2]; ring, Real.cos_neg,
        cos_four_pi_div_three]
    ring
  refine ⟨by rw [d01, d12], by rw [d12, d20], ?_⟩
  have v01 : Real.sin θ₁ * Real.cos θ₀ - Real.cos θ₁ * Real.sin θ₀ =
      Real.sqrt 3 / 2 := by
    have h := Real.sin_sub θ₁ θ₀
    rw [show θ₁ - θ₀ = 2 * π / 3 by rw [h1]; ring, sin_two_pi_div_three] at h
    linarith [h]
  have v12 : Real.sin θ₂ * Real.cos θ₁ - Real.cos θ₂ * Real.sin θ₁ =
      Real.sqrt 3 / 2 := by
    have h := Real.sin_sub θ₂ θ₁
    rw [show θ₂ - θ₁ = 2 * π / 3 by rw [h1, h2]; ring, sin_two_pi_div_three] at h
    linarith [h]
  have v20 : Real.sin θ₀ * Real.cos θ₂ - Real.cos θ₀ * Real.sin θ₂ =
      Real.sqrt 3 / 2 := by
    have h := Real.sin_sub θ₀ θ₂
    rw [show θ₀ - θ₂ = -(4 * π / 3) by rw [h2]; ring, Real.sin_neg,
        sin_four_pi_div_three] at h
    linarith [h]
  have hS : GeometryUtils.shoelaceSum
      [Point.mk (cx + r * Real.cos θ₀) (cy + r * Real.sin θ₀),
       Point.mk (cx + r * Real.cos θ₁) (cy + r * Real.sin θ₁),
       Point.mk (cx + r * Real.cos θ₂) (cy + r * Real.sin θ₂)] =
      r * r * (3 * (Real.sqrt 3 / 2)) := by
    unfold GeometryUtils.shoelaceSum GeometryUtils.crossTerm
    simp only [List.length_cons, List.length_nil, Finset.sum_range_succ,
      Finset.sum_range_zero]
    norm_num
    linear_combination (r * r) * v01 + (r * r) * v12 + (r * r) * v20
  have hrr3 : (0 : ℝ) ≤ r * r * 3 := by nlinarith [mul_self_nonneg r]
  have hnn : (0 : ℝ) ≤ r * r * (3 * (Real.sqrt 3 / 2)) / 2 := by
    nlinarith [mul_nonneg (mul_self_nonneg r) (Real.sqrt_nonneg 3)]
  unfold GeometryUtils.polygonArea
  rw [hS, d01, Real.mul_self_sqrt hrr3, abs_of_nonneg hnn]
  ring

-- ============================================================================
-- C2 : the concrete drag scenario
-- ============================================================================

/-- The default triangle of the `Triangle` constructor: vertices generated
by `GeometryUtils.regularPolygonPoints` on the circle of radius 100 around
`(250, 200)` with the default start angle `-π/2`. -/
def c2Start : Fin 3 → Point := fun i =>
  (GeometryUtils.regularPolygonPoints ⟨250, 200⟩ 100 3 (-(π / 2))).getD i.val pt0

/-- The scenario state after vertex 0 is set to `(400, 200)`. -/
def c2Dragged : Fin 3 → Point := Function.update c2Start 0 ⟨400, 200⟩

/-- The scenario state after `applyConstraints(0)` on the equilateral
triangle. -/
def c2After : Fin 3 → Point := Triangle.applyConstraints "equilateral" c2Dragged 0

lemma c2_p0 : c2Dragged 0 = ⟨400, 200⟩ := by
  unfold c2Dragged
  rw [Function.update_same]

lemma c2_p1 : c2Dragged 1 = ⟨250 + 50 * Real.sqrt 3, 250⟩ := by
  unfold c2Dragged
  rw [Function.update_noteq (by decide)]
  unfold c2Start GeometryUtils.regularPolygonPoints
  rw [show List.range 3 = [0, 1, 2] from rfl]
  simp only [List.map_cons, List.map_nil, Fin.val_one, List.getD_cons_succ,
    List.getD_cons_zero]
  rw [show (-(π / 2) + 2 * π * (1 : ℕ) / (3 : ℕ) : ℝ) = π / 6 by push_cast; ring]
  rw [Real.cos_pi_div_six, Real.sin_pi_div_six]
  simp only [Point.mk.injEq]
  constructor <;> ring

lemma c2_p2 : c2Dragged 2 = ⟨250 - 50 * Real.sqrt 3, 250⟩ := by
  unfold c2Dragged
  rw [Function.update_noteq (by decide)]
  unfold c2Start GeometryUtils.regularPolygonPoints
  rw [show List.range 3 = [0, 1, 2] from rfl]
  simp only [List.map_cons, List.map_nil, Fin.val_two, List.getD_cons_succ,
    List.getD_cons_zero]
  rw [show (-(π / 2) + 2 * π * (2 : ℕ) / (3 : ℕ) : ℝ) = π - π / 6 by push_cast; ring]
  rw [Real.cos_pi_sub, Real.sin_pi_sub, Real.cos_pi_div_six, Real.sin_pi_div_six]
  simp only [Point.mk.injEq]
  constructor <;> ring

lemma c2_mid : Point.midpoint ⟨250 + 50 * Real.sqrt 3, 250⟩
    ⟨250 - 50 * Real.sqrt 3, 250⟩ = (⟨250, 250⟩ : Point) := by
  unfold Point.midpoint
  simp only [Point.mk.injEq]
  constructor <;> ring

lemma sqrt_four_hundred : Real.sqrt 400 = 20 := by
  rw [show (400 : ℝ) = 20 ^ 2 by norm_num, Real.sqrt_sq (by norm_num)]

lemma c2_guard : ¬ ((Point.mk 400 200).distanceTo (Point.mk 250 250) < 20) := by
  unfold Point.distanceTo
  dsimp only
  push_neg
  rw [show ((250 : ℝ) - 400) * (250 - 400) + (250 - 200) * (250 - 200) = 25000
    by norm_num]
  calc (20 : ℝ) = Real.sqrt 400 := sqrt_four_hundred.symm
    _ ≤ Real.sqrt 25000 := Real.sqrt_le_sqrt (by norm_num)

lemma c2After_fun : c2After = fun i : Fin 3 =>
    (⟨(equilateralCenter c2Dragged 0).x + equilateralRadius c2Dragged 0 *
        Real.cos (equilateralAngle c2Dragged 0 +
          (((i.val + 3 - (0 : Fin 3).val) % 3 : ℕ) : ℝ) * (2 * π / 3)),
      (equilateralCenter c2Dragged 0).y + equilateralRadius c2Dragged 0 *
        Real.sin (equilateralAngle c2Dragged 0 +
          (((i.val + 3 - (0 : Fin 3).val) % 3 : ℕ) : ℝ) * (2 * π / 3))⟩ :
      Point) := by
  have hg : ¬ ((c2Dragged 0).distanceTo
      (Point.midpoint (c2Dragged (0 + 1)) (c2Dragged (0 + 2))) < 20) := by
    rw [show ((0 : Fin 3) + 1) = 1 from rfl, show ((0 : Fin 3) + 2) = 2 from rfl,
        c2_p0, c2_p1, c2_p2, c2_mid]
    exact c2_guard
  unfold c2After Triangle.applyConstraints
  rw [if_neg (by decide), if_pos rfl]
  unfold applyEquilateralConstraint
  rw [if_neg hg]

/-- C2: for the default equilateral triangle (vertices generated on a
circle of radius 100 around `(250, 200)`), after setting vertex 0 to
`(400, 200)` and invoking `applyConstraints(0)`, all three side lengths
are exactly equal and the shoelace area exactly equals `(√3/4)` times the
squared side length.  Exact equality implies the tolerances of the claim
(1e-6 relative on the sides, 1% on the area). -/
theorem c2_equilateral_drag_scenario :
    (c2After 0).distanceTo (c2After 1) = (c2After 1).distanceTo (c2After 2) ∧
      (c2After 1).distanceTo (c2After 2) = (c2After 2).distanceTo (c2After 0) ∧
      GeometryUtils.polygonArea [c2After 0, c2After 1, c2After 2] =
        Real.sqrt 3 / 4 *
          ((c2After 0).distanceTo (c2After 1) *
            (c2After 0).distanceTo (c2After 1)) := by
  rw [c2After_fun]
  exact equilateral_reproj (equilateralCenter c2Dragged 0).x
    (equilateralCenter c2Dragged 0).y (equilateralRadius c2Dragged 0)
    (equilateralAngle c2Dragged 0 +
      ((((0 : Fin 3).val + 3 - (0 : Fin 3).val) % 3 : ℕ) : ℝ) * (2 * π / 3))
    (equilateralAngle c2Dragged 0 +
      ((((1 : Fin 3).val + 3 - (0 : Fin 3).val) % 3 : ℕ) : ℝ) * (2 * π / 3))
    (equilateralAngle c2Dragged 0 +
      ((((2 : Fin 3).val + 3 - (0 : Fin 3).val) % 3 : ℕ) : ℝ) * (2 * π / 3))
    (by rw [show (((1 : Fin 3).val + 3 - (0 : Fin 3).val) % 3 : ℕ) = 1 from rfl,
          show (((0 : Fin 3).val + 3 - (0 : Fin 3).val) % 3 : ℕ) = 0 from rfl]
        push_cast
        ring)
    (by rw [show (((2 : Fin 3).val + 3 - (0 : Fin 3).val) % 3 : ℕ) = 2 from rfl,
          show (((0 : Fin 3).val + 3 - (0 : Fin 3).val) % 3 : ℕ) = 0 from rfl]
        push_cast
        ring)

-- ============================================================================
-- auxiliary.js : AuxiliaryLine endpoint derivations
-- ============================================================================

/-- The integer/config parameter set of an `AuxiliaryLine` (`this.params`).
In JavaScript this is one object whose handlers destructure only the fields
relevant to their construction kind; here all fields are always present.
The `direction`/`extendLength` destructuring defaults of the extension
handler (`both`, 150) are the values stored by the manager. -/
structure AuxParams where
  vertexIndex : ℕ
  vertexIndex1 : ℕ
  vertexIndex2 : ℕ
  edgeIndex : ℕ
  edgeIndex1 : ℕ
  edgeIndex2 : ℕ
  throughVertexIndex : ℕ
  parallelToEdgeIndex : ℕ
  perpendicularToEdgeIndex : ℕ
  direction : String
  extendLength : ℝ

/-- The endpoint object returned by the handlers.  `stop` is the JS `end`
field (`end` is reserved in Lean) and `kind` the JS `type` field; the
kind-specific decoration fields (`midpoint`, `foot`, `edgeStart`,
`isRightAngle`, ...) duplicate values derivable from the two endpoints and
are elided. -/
structure Endpoints where
  start : Point
  stop : Point
  kind : String

/-- `AuxiliaryLine._perpendicularFoot(point, lineStart, lineEnd)`: guarded
by `len2 === 0`, in which case the edge start point is returned
(`lineStart.clone()`). -/
def perpendicularFoot (point lineStart lineEnd : Point) : Point :=
  let dx := lineEnd.x - lineStart.x
  let dy := lineEnd.y - lineStart.y
  let len2 := dx * dx + dy * dy
  if len2 = 0 then lineStart
  else
    let t := ((point.x - lineStart.x) * dx + (point.y - lineStart.y) * dy) / len2
    ⟨lineStart.x + t * dx, lineStart.y + t * dy⟩

/-- `AuxiliaryLine._lineIntersection(p1, p2, p3, p4)`: guarded by
`|cross| < 0.0001`. -/
def lineIntersection (p1 p2 p3 p4 : Point) : Option Point :=
  let d1x := p2.x - p1.x
  let d1y := p2.y - p1.y
  let d2x := p4.x - p3.x
  let d2y := p4.y - p3.y
  let cross := d1x * d2y - d1y * d2x
  if |cross| < 0.0001 then none
  else
    let t := ((p3.x - p1.x) * d2y - (p3.y - p1.y) * d2x) / cross
    some ⟨p1.x + t * d1x, p1.y + t * d1y⟩

/-- `AuxiliaryLine._isPointOnSegment(point, segStart, segEnd)` with margin
0.1. -/
def isPointOnSegment (point segStart segEnd : Point) : Prop :=
  point.x ≥ min segStart.x segEnd.x - 0.1 ∧
    point.x ≤ max segStart.x segEnd.x + 0.1 ∧
    point.y ≥ min segStart.y segEnd.y - 0.1 ∧
    point.y ≤ max segStart.y segEnd.y + 0.1

instance (point segStart segEnd : Point) :
    Decidable (isPointOnSegment point segStart segEnd) := by
  unfold isPointOnSegment
  infer_instance

/-- `AuxiliaryLine._getConnectingEndpoints`. -/
def getConnectingEndpoints (pts : List Point) (p : AuxParams) :
    Option Endpoints :=
  if p.vertexIndex1 ≥ pts.length ∨ p.vertexIndex2 ≥ pts.length then none
  else some ⟨pts.getD p.vertexIndex1 pt0, pts.getD p.vertexIndex2 pt0, "segment"⟩

/-- `AuxiliaryLine._getMedianEndpoints`. -/
def getMedianEndpoints (pts : List Point) (p : AuxParams) : Option Endpoints :=
  if p.vertexIndex ≥ pts.length ∨ pts.length < 3 then none
  else some ⟨pts.getD p.vertexIndex pt0,
    Point.midpoint (pts.getD ((p.vertexIndex + 1) % pts.length) pt0)
      (pts.getD ((p.vertexIndex + 2) % pts.length) pt0), "segment"⟩

/-- `AuxiliaryLine._getAltitudeEndpoints`: vertex to the perpendicular foot
on its opposite edge. -/
def getAltitudeEndpoints (pts : List Point) (p : AuxParams) :
    Option Endpoints :=
  if p.vertexIndex ≥ pts.length ∨ pts.length < 3 then none
  else some ⟨pts.getD p.vertexIndex pt0,
    perpendicularFoot (pts.getD p.vertexIndex pt0)
      (pts.getD ((p.vertexIndex + 1) % pts.length) pt0)
      (pts.getD ((p.vertexIndex + 2) % pts.length) pt0), "segment"⟩

/-- The edge-level body of `AuxiliaryLine._getPerpendicularBisectorEndpoints`
(after the index guard): `len === 0` returns null, else the bisector is
extended 300 units both ways from the edge midpoint. -/
def perpBisectorFrom (p1 p2 : Point) : Option Endpoints :=
  let dx := p2.x - p1.x
  let dy := p2.y - p1.y
  let len := Real.sqrt (dx * dx + dy * dy)
  if len = 0 then none
  else some ⟨⟨(Point.midpoint p1 p2).x - -dy / len * 300,
              (Point.midpoint p1 p2).y - dx / len * 300⟩,
             ⟨(Point.midpoint p1 p2).x + -dy / len * 300,
              (Point.midpoint p1 p2).y + dx / len * 300⟩, "line"⟩

/-- `AuxiliaryLine._getPerpendicularBisectorEndpoints`. -/
def getPerpendicularBisectorEndpoints (pts : List Point) (p : AuxParams) :
    Option Endpoints :=
  if p.edgeIndex ≥ pts.length then none
  else perpBisectorFrom (pts.getD p.edgeIndex pt0)
    (pts.getD ((p.edgeIndex + 1) % pts.length) pt0)

/-- `AuxiliaryLine._getAngleBisectorEndpoints`: ray along the normalized
sum of the two unit vectors to the neighbours, truncated at the first
in-range edge intersection (first-match-wins over the edge loop). -/
def getAngleBisectorEndpoints (pts : List Point) (p : AuxParams) :
    Option Endpoints :=
  if p.vertexIndex ≥ pts.length ∨ pts.length < 3 then none
  else
    let n := pts.length
    let vertex := pts.getD p.vertexIndex pt0
    let prev := pts.getD ((p.vertexIndex + n - 1) % n) pt0
    let next := pts.getD ((p.vertexIndex + 1) % n) pt0
    let v1 := (Vec.fromPoints vertex prev).normalize
    let v2 := (Vec.fromPoints vertex next).normalize
    let bisectorDir := (Vec.mk (v1.x + v2.x) (v1.y + v2.y)).normalize
    let bisectorEnd : Point :=
      ⟨vertex.x + bisectorDir.x * 500, vertex.y + bisectorDir.y * 500⟩
    let intersection := (List.range n).findSome? fun i =>
      if i = p.vertexIndex ∨ i = (p.vertexIndex + n - 1) % n then none
      else match lineIntersection vertex bisectorEnd (pts.getD i pt0)
          (pts.getD ((i + 1) % n) pt0) with
        | some inter =>
          if isPointOnSegment inter (pts.getD i pt0) (pts.getD ((i + 1) % n) pt0)
          then some inter else none
        | none => none
    some ⟨vertex, intersection.getD bisectorEnd, "ray"⟩

/-- The edge-level body of `AuxiliaryLine._getParallelEndpoints` (after the
index guard): `len === 0` returns null, else the line through the vertex is
extended 300 units both ways along the edge direction. -/
def parallelFrom (throughPoint edgeStart edgeEnd : Point) : Option Endpoints :=
  let dx := edgeEnd.x - edgeStart.x
  let dy := edgeEnd.y - edgeStart.y
  let len := Real.sqrt (dx * dx + dy * dy)
  if len = 0 then none
  else some ⟨⟨throughPoint.x - dx / len * 300, throughPoint.y - dy / len * 300⟩,
             ⟨throughPoint.x + dx / len * 300, throughPoint.y + dy / len * 300⟩,
             "line"⟩

/-- `AuxiliaryLine._getParallelEndpoints`. -/
def getParallelEndpoints (pts : List Point) (p : AuxParams) :
    Option Endpoints :=
  if p.throughVertexIndex ≥ pts.length ∨ p.parallelToEdgeIndex ≥ pts.length
  then none
  else parallelFrom (pts.getD p.throughVertexIndex pt0)
    (pts.getD p.parallelToEdgeIndex pt0)
    (pts.getD ((p.parallelToEdgeIndex + 1) % pts.length) pt0)

/-- `AuxiliaryLine._getPerpendicularEndpoints`: vertex to the perpendicular
foot on the selected edge line. -/
def getPerpendicularEndpoints (pts : List Point) (p : AuxParams) :
    Option Endpoints :=
  if p.throughVertexIndex ≥ pts.length ∨
      p.perpendicularToEdgeIndex ≥ pts.length then none
  else some ⟨pts.getD p.throughVertexIndex pt0,
    perpendicularFoot (pts.getD p.throughVertexIndex pt0)
      (pts.getD p.perpendicularToEdgeIndex pt0)
      (pts.getD ((p.perpendicularToEdgeIndex + 1) % pts.length) pt0),
    "segment"⟩

/-- `AuxiliaryLine._getMidlineEndpoints`. -/
def getMidlineEndpoints (pts : List Point) (p : AuxParams) :
    Option Endpoints :=
  if p.edgeIndex1 ≥ pts.length ∨ p.edgeIndex2 ≥ pts.length then none
  else some ⟨Point.midpoint (pts.getD p.edgeIndex1 pt0)
      (pts.getD ((p.edgeIndex1 + 1) % pts.length) pt0),
    Point.midpoint (pts.getD p.edgeIndex2 pt0)
      (pts.getD ((p.edgeIndex2 + 1) % pts.length) pt0), "segment"⟩

/-- The edge-level body of `AuxiliaryLine._getExtensionEndpoints` (after the
index guard): `len === 0` returns null, else the edge is extended by
`extendLength` according to `direction`. -/
def extensionFrom (p1 p2 : Point) (direction : String) (extendLength : ℝ) :
    Option Endpoints :=
  let dx := p2.x - p1.x
  let dy := p2.y - p1.y
  let len := Real.sqrt (dx * dx + dy * dy)
  if len = 0 then none
  else
    let dirX := dx / len
    let dirY := dy / len
    if direction = "both" then
      some ⟨⟨p1.x - dirX * extendLength, p1.y - dirY * extendLength⟩,
            ⟨p2.x + dirX * extendLength, p2.y + dirY * extendLength⟩, "ray"⟩
    else if direction = "start" then
      some ⟨⟨p1.x - dirX * extendLength, p1.y - dirY * extendLength⟩, p1, "ray"⟩
    else
      some ⟨p2, ⟨p2.x + dirX * extendLength, p2.y + dirY * extendLength⟩, "ray"⟩

/-- `AuxiliaryLine._getExtensionEndpoints`. -/
def getExtensionEndpoints (pts : List Point) (p : AuxParams) :
    Option Endpoints :=
  if p.edgeIndex ≥ pts.length then none
  else extensionFrom (pts.getD p.edgeIndex pt0)
    (pts.getD ((p.edgeIndex + 1) % pts.length) pt0) p.direction p.extendLength

/-- `AuxiliaryLine.getEndpoints()`: null when the owning shape reference is
missing or has no points array (`!this.shape?.points`, both collapsed to
`none` here), otherwise dispatch over the nine construction kinds with
`handlers[this.type]?.() || null` — an unknown kind yields null. -/
def getEndpoints (shape : Option (List Point)) (ty : String) (p : AuxParams) :
    Option Endpoints :=
  match shape with
  | none => none
  | some pts =>
    if ty = "connecting" then getConnectingEndpoints pts p
    else if ty = "median" then getMedianEndpoints pts p
    else if ty = "altitude" then getAltitudeEndpoints pts p
    else if ty = "perpendicular-bisector" then
      getPerpendicularBisectorEndpoints pts p
    else if ty = "angle-bisector" then getAngleBisectorEndpoints pts p
    else if ty = "parallel" then getParallelEndpoints pts p
    else if ty = "perpendicular" then getPerpendicularEndpoints pts p
    else if ty = "midline" then getMidlineEndpoints pts p
    else if ty = "extension" then getExtensionEndpoints pts p
    else none

-- ============================================================================
-- C9 : getEndpoints is total and yields null on the documented conditions
-- ============================================================================

/-- C9: `AuxiliaryLine.getEndpoints` is a total function of the embedding
(never throws by construction) and returns null whenever the owning shape
reference is missing or has no points array (both `none` here), whenever
the construction type is not one of the nine known kinds, and whenever the
stored vertex/edge index of the requested kind is at or beyond the owning
point count of the owning shape. -/
theorem c9_getEndpoints_null_conditions (sh : Option (List Point))
    (ty : String) (p : AuxParams) (pts : List Point) :
    getEndpoints none ty p = none ∧
      (ty ∉ (["connecting", "median", "altitude", "perpendicular-bisector",
          "angle-bisector", "parallel", "perpendicular", "midline",
          "extension"] : List String) → getEndpoints sh ty p = none) ∧
      (pts.length ≤ p.vertexIndex1 →
        getEndpoints (some pts) "connecting" p = none) ∧
      (pts.length ≤ p.vertexIndex2 →
        getEndpoints (some pts) "connecting" p = none) ∧
      (pts.length ≤ p.vertexIndex →
        getEndpoints (some pts) "median" p = none) ∧
      (pts.length ≤ p.vertexIndex →
        getEndpoints (some pts) "altitude" p = none) ∧
      (pts.length ≤ p.edgeIndex →
        getEndpoints (some pts) "perpendicular-bisector" p = none) ∧
      (pts.length ≤ p.vertexIndex →
        getEndpoints (some pts) "angle-bisector" p = none) ∧
      (pts.length ≤ p.throughVertexIndex →
        getEndpoints (some pts) "parallel" p = none) ∧
      (pts.length ≤ p.parallelToEdgeIndex →
        getEndpoints (some pts) "parallel" p = none) ∧
      (pts.length ≤ p.throughVertexIndex →
        getEndpoints (some pts) "perpendicular" p = none) ∧
      (pts.length ≤ p.perpendicularToEdgeIndex →
        getEndpoints (some pts) "perpendicular" p = none) ∧
      (pts.length ≤ p.edgeIndex1 →
        getEndpoints (some pts) "midline" p = none) ∧
      (pts.length ≤ p.edgeIndex2 →
        getEndpoints (some pts) "midline" p = none) ∧
      (pts.length ≤ p.edgeIndex →
        getEndpoints (some pts) "extension" p = none) := by
  refine ⟨rfl, ?_, ?_, ?_, ?_, ?_, ?_, ?_, ?_, ?_, ?_, ?_, ?_, ?_, ?_⟩
  · intro h
    simp only [List.mem_cons, List.not_mem_nil, or_false, not_or] at h
    cases sh with
    | none => rfl
    | some pts' =>
      simp only [getEndpoints]
      rw [if_neg h.1, if_neg h.2.1, if_neg h.2.2.1, if_neg h.2.2.2.1,
          if_neg h.2.2.2.2.1, if_neg h.2.2.2.2.2.1, if_neg h.2.2.2.2.2.2.1,
          if_neg h.2.2.2.2.2.2.2.1, if_neg h.2.2.2.2.2.2.2.2]
  · intro h
    simp only [getEndpoints, String.reduceEq, if_true, if_false]
    unfold getConnectingEndpoints
    rw [if_pos (Or.inl h)]
  · intro h
    simp only [getEndpoints, String.reduceEq, if_true, if_false]
    unfold getConnectingEndpoints
    rw [if_pos (Or.inr h)]
  · intro h
    simp only [getEndpoints, String.reduceEq, if_true, if_false]
    unfold getMedianEndpoints
    rw [if_pos (Or.inl h)]
  · intro h
    simp only [getEndpoints, String.reduceEq, if_true, if_false]
    unfold getAltitudeEndpoints
    rw [if_pos (Or.inl h)]
  · intro h
    simp only [getEndpoints, String.reduceEq, if_true, if_false]
    unfold getPerpendicularBisectorEndpoints
    rw [if_pos h]
  · intro h
    simp only [getEndpoints, String.reduceEq, if_true, if_false]
    unfold getAngleBisectorEndpoints
    rw [if_pos (Or.inl h)]
  · intro h
    simp only [getEndpoints, String.reduceEq, if_true, if_false]
    unfold getParallelEndpoints
    rw [if_pos (Or.inl h)]
  · intro h
    simp only [getEndpoints, String.reduceEq, if_true, if_false]
    unfold getParallelEndpoints
    rw [if_pos (Or.inr h)]
  · intro h
    simp only [getEndpoints, String.reduceEq, if_true, if_false]
    unfold getPerpendicularEndpoints
    rw [if_pos (Or.inl h)]
  · intro h
    simp only [getEndpoints, String.reduceEq, if_true, if_false]
    unfold getPerpendicularEndpoints
    rw [if_pos (Or.inr h)]
  · intro h
    simp only [getEndpoints, String.reduceEq, if_true, if_false]
    unfold getMidlineEndpoints
    rw [if_pos (Or.inl h)]
  · intro h
    simp only [getEndpoints, String.reduceEq, if_true, if_false]
    unfold getMidlineEndpoints
    rw [if_pos (Or.inr h)]
  · intro h
    simp only [getEndpoints, String.reduceEq, if_true, if_false]
    unfold getExtensionEndpoints
    rw [if_pos h]

/-- The parameter set used by the C9 witness: every stored index is 5,
pointing beyond a one-point shape. -/
def c9Params : AuxParams := ⟨5, 5, 5, 5, 5, 5, 5, 5, 5, "both", 150⟩

/-- Witness for C9 at a one-point shape, an unknown construction kind and
out-of-range indices. -/
theorem c9_getEndpoints_null_conditions_witness :
    getEndpoints none "median" c9Params = none ∧
      ("bogus" ∉ (["connecting", "median", "altitude",
          "perpendicular-bisector", "angle-bisector", "parallel",
          "perpendicular", "midline", "extension"] : List String)) ∧
      getEndpoints (some [pt0]) "bogus" c9Params = none ∧
      ([pt0] : List Point).length ≤ c9Params.vertexIndex1 ∧
      getEndpoints (some [pt0]) "connecting" c9Params = none ∧
      getEndpoints (some [pt0]) "median" c9Params = none ∧
      getEndpoints (some [pt0]) "altitude" c9Params = none ∧
      getEndpoints (some [pt0]) "perpendicular-bisector" c9Params = none ∧
      getEndpoints (some [pt0]) "angle-bisector" c9Params = none ∧
      getEndpoints (some [pt0]) "parallel" c9Params = none ∧
      getEndpoints (some [pt0]) "perpendicular" c9Params = none ∧
      getEndpoints (some [pt0]) "midline" c9Params = none ∧
      getEndpoints (some [pt0]) "extension" c9Params = none := by
  have h := c9_getEndpoints_null_conditions (some [pt0]) "bogus" c9Params [pt0]
  have hm : "bogus" ∉ (["connecting", "median", "altitude",
      "perpendicular-bisector", "angle-bisector", "parallel",
      "perpendicular", "midline", "extension"] : List String) := by decide
  have hi : ([pt0] : List Point).length ≤ c9Params.vertexIndex1 := by
    simp [c9Params]
  refine ⟨h.1, hm, h.2.1 hm, hi, ?_, ?_, ?_, ?_, ?_, ?_, ?_, ?_, ?_⟩
  · exact h.2.2.1 (by simp [c9Params])
  · exact h.2.2.2.2.1 (by simp [c9Params])
  · exact h.2.2.2.2.2.1 (by simp [c9Params])
  · exact h.2.2.2.2.2.2.1 (by simp [c9Params])
  · exact h.2.2.2.2.2.2.2.1 (by simp [c9Params])
  · exact h.2.2.2.2.2.2.2.2.1 (by simp [c9Params])
  · exact h.2.2.2.2.2.2.2.2.2.2.1 (by simp [c9Params])
  · exact h.2.2.2.2.2.2.2.2.2.2.2.2.1 (by simp [c9Params])
  · exact h.2.2.2.2.2.2.2.2.2.2.2.2.2.2 (by simp [c9Params])

-- ============================================================================
-- C5 : degenerate-edge policy of the endpoint derivations
-- ============================================================================

lemma perpendicularFoot_degenerate (a b : Point) :
    perpendicularFoot a b b = b := by
  unfold perpendicularFoot
  simp

lemma perpBisectorFrom_degenerate (q : Point) : perpBisectorFrom q q = none := by
  unfold perpBisectorFrom
  simp

lemma parallelFrom_degenerate (t q : Point) : parallelFrom t q q = none := by
  unfold parallelFrom
  simp

lemma extensionFrom_degenerate (q : Point) (d : String) (l : ℝ) :
    extensionFrom q q d l = none := by
  unfold extensionFrom
  simp

/-- C5: derivations that divide by an edge length return null when the
selected edge is degenerate (perpendicular-bisector, parallel, extension),
while the altitude and perpendicular kinds go through the guarded
perpendicular-foot helper, which returns the edge start point instead of
dividing; so no derivation ever divides by a zero-length vector, and the
angle-bisector kind (whose normalizations are total by the `normalize`
zero-vector guard) always returns a result.  In this real embedding no NaN
can arise; what is verified is the guard structure that prevents the
division in the JavaScript source. -/
theorem c5_zero_length_edge_policy (pts : List Point) (p : AuxParams)
    (a b : Point) :
    (pts.getD p.edgeIndex pt0 = pts.getD ((p.edgeIndex + 1) % pts.length) pt0 →
      getEndpoints (some pts) "perpendicular-bisector" p = none) ∧
      (pts.getD p.parallelToEdgeIndex pt0 =
          pts.getD ((p.parallelToEdgeIndex + 1) % pts.length) pt0 →
        getEndpoints (some pts) "parallel" p = none) ∧
      (pts.getD p.edgeIndex pt0 =
          pts.getD ((p.edgeIndex + 1) % pts.length) pt0 →
        getEndpoints (some pts) "extension" p = none) ∧
      perpendicularFoot a b b = b ∧
      (p.vertexIndex < pts.length → 3 ≤ pts.length →
        pts.getD ((p.vertexIndex + 1) % pts.length) pt0 =
          pts.getD ((p.vertexIndex + 2) % pts.length) pt0 →
        getEndpoints (some pts) "altitude" p =
          some ⟨pts.getD p.vertexIndex pt0,
            pts.getD ((p.vertexIndex + 1) % pts.length) pt0, "segment"⟩) ∧
      (p.throughVertexIndex < pts.length →
        p.perpendicularToEdgeIndex < pts.length →
        pts.getD p.perpendicularToEdgeIndex pt0 =
          pts.getD ((p.perpendicularToEdgeIndex + 1) % pts.length) pt0 →
        getEndpoints (some pts) "perpendicular" p =
          some ⟨pts.getD p.throughVertexIndex pt0,
            pts.getD p.perpendicularToEdgeIndex pt0, "segment"⟩) ∧
      (p.vertexIndex < pts.length → 3 ≤ pts.length →
        ∃ e, getEndpoints (some pts) "angle-bisector" p = some e) := by
  refine ⟨?_, ?_, ?_, perpendicularFoot_degenerate a b, ?_, ?_, ?_⟩
  · intro h
    simp only [getEndpoints, String.reduceEq, if_true, if_false]
    unfold getPerpendicularBisectorEndpoints
    by_cases hr : p.edgeIndex ≥ pts.length
    · rw [if_pos hr]
    · rw [if_neg hr, h]
      exact perpBisectorFrom_degenerate _
  · intro h
    simp only [getEndpoints, String.reduceEq, if_true, if_false]
    unfold getParallelEndpoints
    by_cases hr : p.throughVertexIndex ≥ pts.length ∨
        p.parallelToEdgeIndex ≥ pts.length
    · rw [if_pos hr]
    · rw [if_neg hr, h]
      exact parallelFrom_degenerate _ _
  · intro h
    simp only [getEndpoints, String.reduceEq, if_true, if_false]
    unfold getExtensionEndpoints
    by_cases hr : p.edgeIndex ≥ pts.length
    · rw [if_pos hr]
    · rw [if_neg hr, h]
      exact extensionFrom_degenerate _ _ _
  · intro h1 h2 h3
    simp only [getEndpoints, String.reduceEq, if_true, if_false]
    unfold getAltitudeEndpoints
    rw [if_neg (by push_neg; exact ⟨h1, h2⟩), ← h3,
        perpendicularFoot_degenerate]
  · intro h1 h2 h3
    simp only [getEndpoints, String.reduceEq, if_true, if_false]
    unfold getPerpendicularEndpoints
    rw [if_neg (by push_neg; exact ⟨h1, h2⟩), h3, perpendicularFoot_degenerate,
        ← h3]
  · intro h1 h2
    simp only [getEndpoints, String.reduceEq, if_true, if_false]
    unfold getAngleBisectorEndpoints
    rw [if_neg (by push_neg; exact ⟨h1, h2⟩)]
    exact ⟨_, rfl⟩

/-- The shape of the C5 witness: vertex 0 at the origin and a collapsed
edge 1→2. -/
def c5Pts : List Point := [⟨0, 0⟩, ⟨2, 3⟩, ⟨2, 3⟩]

/-- The parameter set of the C5 witness: vertex selections point at vertex
0, edge selections at the degenerate edge 1→2. -/
def c5Params : AuxParams := ⟨0, 0, 0, 1, 0, 0, 0, 1, 1, "both", 150⟩

/-- Witness for C5 on `c5Pts`: the three dividing kinds return null on the
collapsed edge, the foot helper returns the edge start, and altitude /
perpendicular / angle-bisector return results without dividing. -/
theorem c5_zero_length_edge_policy_witness :
    getEndpoints (some c5Pts) "perpendicular-bisector" c5Params = none ∧
      getEndpoints (some c5Pts) "parallel" c5Params = none ∧
      getEndpoints (some c5Pts) "extension" c5Params = none ∧
      perpendicularFoot ⟨0, 0⟩ ⟨2, 3⟩ ⟨2, 3⟩ = (⟨2, 3⟩ : Point) ∧
      getEndpoints (some c5Pts) "altitude" c5Params =
        some ⟨c5Pts.getD c5Params.vertexIndex pt0,
          c5Pts.getD ((c5Params.vertexIndex + 1) % c5Pts.length) pt0,
          "segment"⟩ ∧
      getEndpoints (some c5Pts) "perpendicular" c5Params =
        some ⟨c5Pts.getD c5Params.throughVertexIndex pt0,
          c5Pts.getD c5Params.perpendicularToEdgeIndex pt0, "segment"⟩ ∧
      (∃ e, getEndpoints (some c5Pts) "angle-bisector" c5Params = some e) := by
  have h := c5_zero_length_edge_policy c5Pts c5Params ⟨0, 0⟩ ⟨2, 3⟩
  exact ⟨h.1 rfl, h.2.1 rfl, h.2.2.1 rfl, h.2.2.2.1,
    h.2.2.2.2.1 (by norm_num [c5Pts, c5Params]) (by norm_num [c5Pts]) rfl,
    h.2.2.2.2.2.1 (by norm_num [c5Pts, c5Params]) (by norm_num [c5Pts, c5Params]) rfl,
    h.2.2.2.2.2.2 (by norm_num [c5Pts, c5Params]) (by norm_num [c5Pts])⟩

-- ============================================================================
-- Serialization model : Shape.toJSON, per-class fromJSON, shapeFromJSON
-- ============================================================================

/-- The `style` object of a `Shape`. -/
structure Style where
  fillColor : String
  strokeColor : String
  lineWidth : ℝ
  pointColor : String
  pointRadius : ℝ
  labelColor : String

/-- The default style installed by the `Shape` constructor. -/
def defaultStyle : Style :=
  ⟨"rgba(102, 126, 234, 0.2)", "#667eea", 3, "#764ba2", 12, "#374151"⟩

/-- The `{...defaults, ...options.style}` merge of the `Shape` constructor.
JavaScript merges per key; a full style object (as produced by `toJSON`,
which serializes every key) overrides every default, which is what the
`Option.getD` models.  A missing style yields the defaults. -/
def mergeStyle (o : Option Style) : Style := o.getD defaultStyle

/-- State of a `Point2D` instance (fields relevant to serialization;
`id`/`info`/`visible`/`draggable` metadata are carried verbatim by the
code and elided here). -/
structure Point2DS where
  points : List Point
  style : Style

/-- State of a `Line2D` instance: `lineType` is `segment`, `ray` or `line`. -/
structure LineS where
  points : List Point
  lineType : String
  style : Style

/-- State of a `Triangle` instance. -/
structure TriangleS where
  points : List Point
  triangleType : String
  style : Style

/-- State of a `Quadrilateral` instance. -/
structure QuadS where
  points : List Point
  quadType : String
  style : Style

/-- State of a `Circle` instance: `points = [center, radius control]`. -/
structure CircleS where
  center : Point
  radius : ℝ
  circleType : String
  startAngle : ℝ
  endAngle : ℝ
  points : List Point
  style : Style

/-- State of a `Polygon` instance. -/
structure PolygonS where
  points : List Point
  sides : ℕ
  isRegular : Bool
  style : Style

/-- A shape of any of the six families (the `Shape` subclass hierarchy as a
tagged variant). -/
inductive GShape where
  | point2d (s : Point2DS)
  | line (s : LineS)
  | triangle (s : TriangleS)
  | quadrilateral (s : QuadS)
  | circle (s : CircleS)
  | polygon (s : PolygonS)

/-- The `type` tag passed to the `Shape` base constructor by each subclass. -/
def GShape.type : GShape → String
  | .point2d _ => "point"
  | .line _ => "line"
  | .triangle _ => "triangle"
  | .quadrilateral _ => "quadrilateral"
  | .circle _ => "circle"
  | .polygon _ => "polygon"

/-- The `points` array of the shape. -/
def GShape.points : GShape → List Point
  | .point2d s => s.points
  | .line s => s.points
  | .triangle s => s.points
  | .quadrilateral s => s.points
  | .circle s => s.points
  | .polygon s => s.points

/-- The default vertices of the `Triangle` constructor (center `(250,200)`,
radius 100). -/
def defaultTriPoints : List Point :=
  GeometryUtils.regularPolygonPoints ⟨250, 200⟩ 100 3 (-(π / 2))

/-- The `Triangle` constructor: uses the given points when exactly three
are supplied, otherwise the default equilateral layout. -/
def mkTriangle (points : Option (List Point)) (triangleType : String)
    (style : Option Style) : TriangleS :=
  match points with
  | some ps =>
    if ps.length = 3 then ⟨ps, triangleType, mergeStyle style⟩
    else ⟨defaultTriPoints, triangleType, mergeStyle style⟩
  | none => ⟨defaultTriPoints, triangleType, mergeStyle style⟩

/-- `Quadrilateral._createDefaultPoints(type, 250, 200, 100)`. -/
def quadDefaultPoints (quadType : String) : List Point :=
  if quadType = "square" then
    [⟨350, 100⟩, ⟨350, 300⟩, ⟨150, 300⟩, ⟨150, 100⟩]
  else if quadType = "rectangle" then
    [⟨350, 130⟩, ⟨350, 270⟩, ⟨150, 270⟩, ⟨150, 130⟩]
  else if quadType = "rhombus" then
    [⟨250, 100⟩, ⟨380, 200⟩, ⟨250, 300⟩, ⟨120, 200⟩]
  else if quadType = "parallelogram" then
    [⟨300, 120⟩, ⟨380, 260⟩, ⟨200, 280⟩, ⟨120, 140⟩]
  else if quadType = "trapezoid" then
    [⟨310, 120⟩, ⟨390, 280⟩, ⟨110, 280⟩, ⟨190, 120⟩]
  else if quadType = "kite" then
    [⟨250, 80⟩, ⟨330, 200⟩, ⟨250, 300⟩, ⟨170, 200⟩]
  else
    [⟨320, 100⟩, ⟨370, 270⟩, ⟨230, 320⟩, ⟨150, 170⟩]

/-- The `Quadrilateral` constructor. -/
def mkQuad (points : Option (List Point)) (quadType : String)
    (style : Option Style) : QuadS :=
  match points with
  | some ps =>
    if ps.length = 4 then ⟨ps, quadType, mergeStyle style⟩
    else ⟨quadDefaultPoints quadType, quadType, mergeStyle style⟩
  | none => ⟨quadDefaultPoints quadType, quadType, mergeStyle style⟩

/-- The `Line2D` constructor. -/
def mkLine (p1 p2 : Point) (lineType : String) (style : Option Style) :
    LineS :=
  ⟨[p1, p2], lineType, mergeStyle style⟩

/-- The `Point2D` constructor. -/
def mkPoint2D (x y : ℝ) (style : Option Style) : Point2DS :=
  ⟨[⟨x, y⟩], mergeStyle style⟩

/-- The `Circle` constructor: the control points are `[center, center +
(radius, 0)]`; `startAngle`/`endAngle` default to `0` and `2π` when absent
(the JavaScript `||` defaults). -/
def mkCircle (center : Point) (radius : ℝ) (circleType : String)
    (startAngle endAngle : Option ℝ) (style : Option Style) : CircleS :=
  ⟨center, radius, circleType, startAngle.getD 0, endAngle.getD (2 * π),
   [center, ⟨center.x + radius, center.y⟩], mergeStyle style⟩

/-- The `Polygon` constructor on an explicit vertex array (the
deserialization path): with at least three points they are adopted
verbatim, otherwise a regular polygon around `(250, 200)` with radius 100
is generated. -/
def mkPolygon (points : List Point) (sides : ℕ) (isRegular : Bool)
    (style : Option Style) : PolygonS :=
  if 3 ≤ points.length then ⟨points, points.length, isRegular, mergeStyle style⟩
  else ⟨GeometryUtils.regularPolygonPoints ⟨250, 200⟩ 100 sides (-(π / 2)),
    sides, true, mergeStyle style⟩

/-- The serialized JSON form of a shape.  Fields written only by some
classes are `Option`s (`none` = key absent from the JSON object);
`id`/`info`/`visible`/`draggable` metadata are elided as in the shape
records. -/
structure ShapeJSON where
  type : String
  points : List Point
  style : Style
  x : Option ℝ
  y : Option ℝ
  lineType : Option String
  triangleType : Option String
  quadType : Option String
  center : Option Point
  radius : Option ℝ
  circleType : Option String
  startAngle : Option ℝ
  endAngle : Option ℝ
  sides : Option ℕ
  isRegular : Option Bool

/-- `Shape.prototype.toJSON`: `{id, type, points, style, info, visible,
draggable}` — and nothing else.  Every optional subclass field is absent. -/
def baseToJSON (type : String) (points : List Point) (style : Style) :
    ShapeJSON :=
  ⟨type, points, style, none, none, none, none, none, none, none, none,
   none, none, none, none⟩

/-- `toJSON` per class: `Point2D`, `Circle` and `Polygon` extend the base
serialization, while `Line2D`, `Triangle` and `Quadrilateral` inherit
`Shape.toJSON` unchanged — their `lineType` / `triangleType` / `quadType`
fields are never written. -/
def GShape.toJSON : GShape → ShapeJSON
  | .point2d s =>
    { baseToJSON "point" s.points s.style with
      x := some (s.points.getD 0 pt0).x, y := some (s.points.getD 0 pt0).y }
  | .line s => baseToJSON "line" s.points s.style
  | .triangle s => baseToJSON "triangle" s.points s.style
  | .quadrilateral s => baseToJSON "quadrilateral" s.points s.style
  | .circle s =>
    { baseToJSON "circle" s.points s.style with
      center := some s.center, radius := some s.radius,
      circleType := some s.circleType, startAngle := some s.startAngle,
      endAngle := some s.endAngle }
  | .polygon s =>
    { baseToJSON "polygon" s.points s.style with
      sides := some s.sides, isRegular := some s.isRegular }

/-- `Point2D.fromJSON` (the `x`/`y` keys are always present in data written
by `Point2D.toJSON`; absent keys would be JavaScript `undefined`). -/
def Point2D.fromJSON (d : ShapeJSON) : Point2DS :=
  mkPoint2D (d.x.getD 0) (d.y.getD 0) (some d.style)

/-- `Line2D.fromJSON`: rebuilds from the first two points;
`data.lineType` with fallback `segment`. -/
def Line2D.fromJSON (d : ShapeJSON) : LineS :=
  mkLine (d.points.getD 0 pt0) (d.points.getD 1 pt0)
    (d.lineType.getD "segment") (some d.style)

/-- `Triangle.fromJSON`: `data.triangleType` with fallback `any`. -/
def Triangle.fromJSON (d : ShapeJSON) : TriangleS :=
  mkTriangle (some d.points) (d.triangleType.getD "any") (some d.style)

/-- `Quadrilateral.fromJSON`: `data.quadType` with fallback `any`. -/
def Quadrilateral.fromJSON (d : ShapeJSON) : QuadS :=
  mkQuad (some d.points) (d.quadType.getD "any") (some d.style)

/-- `Circle.fromJSON`. -/
def Circle.fromJSON (d : ShapeJSON) : CircleS :=
  mkCircle (d.center.getD pt0) (d.radius.getD 0) (d.circleType.getD "circle")
    d.startAngle d.endAngle (some d.style)

/-- `Polygon.fromJSON`. -/
def Polygon.fromJSON (d : ShapeJSON) : PolygonS :=
  mkPolygon d.points (d.sides.getD 0) (d.isRegular.getD false) (some d.style)

/-- `shapeFromJSON(data)`: the factory switch over `data.type`; unknown
tags yield null. -/
def shapeFromJSON (d : ShapeJSON) : Option GShape :=
  if d.type = "point" then some (.point2d (Point2D.fromJSON d))
  else if d.type = "line" then some (.line (Line2D.fromJSON d))
  else if d.type = "triangle" then some (.triangle (Triangle.fromJSON d))
  else if d.type = "quadrilateral" then
    some (.quadrilateral (Quadrilateral.fromJSON d))
  else if d.type = "circle" then some (.circle (Circle.fromJSON d))
  else if d.type = "polygon" then some (.polygon (Polygon.fromJSON d))
  else none

-- ============================================================================
-- C3 : round-trip loses the subkind
-- ============================================================================

/-- The original shape of the C3 evaluation: the factory result of
the factory applied to the tag `triangle-equilateral`, i.e. a
`Triangle` built with null points and subkind `equilateral`. -/
def c3Orig : TriangleS := mkTriangle none "equilateral" none

/-- C3 fails on the code: serializing an equilateral `Triangle` via the
inherited `Shape.toJSON` and deserializing through `shapeFromJSON` yields a
triangle whose vertices and style equal the original but whose
`triangleType` is `"any"`, because `toJSON` never writes `triangleType`
(nor `quadType`/`lineType`) while `fromJSON` expects it.  The subkind part
of the round-trip claim is therefore violated. -/
theorem c3_roundtrip_loses_subkind :
    ∃ t : TriangleS,
      shapeFromJSON (GShape.toJSON (GShape.triangle c3Orig)) =
          some (GShape.triangle t) ∧
        t.points = c3Orig.points ∧
        t.style = c3Orig.style ∧
        t.triangleType = "any" ∧
        c3Orig.triangleType = "equilateral" := by
  have hlen : defaultTriPoints.length = 3 := by
    unfold defaultTriPoints GeometryUtils.regularPolygonPoints
    simp
  refine ⟨Triangle.fromJSON (GShape.toJSON (GShape.triangle c3Orig)),
    ?_, ?_, ?_, ?_, rfl⟩
  · unfold shapeFromJSON
    rw [show (GShape.toJSON (GShape.triangle c3Orig)).type = "triangle" from rfl,
        if_neg (by decide), if_neg (by decide), if_pos rfl]
  all_goals
    unfold Triangle.fromJSON GShape.toJSON baseToJSON c3Orig mkTriangle
      mergeStyle defaultStyle
    simp [hlen]

-- ============================================================================
-- auxiliary.js : AuxiliaryLineManager activation (C7)
-- ============================================================================

/-- The `supportedTypes` table of `AuxiliaryLineManager`, looked up by the
family tag of the shape (with empty-list fallback for unknown tags). -/
def supportedAuxTypes (ty : String) : List String :=
  if ty = "point" then []
  else if ty = "line" then ["perpendicular-bisector", "extension"]
  else if ty = "triangle" then
    ["connecting", "median", "altitude", "perpendicular-bisector",
     "angle-bisector", "parallel", "perpendicular", "midline", "extension"]
  else if ty = "quadrilateral" then
    ["connecting", "median", "altitude", "perpendicular-bisector",
     "angle-bisector", "parallel", "perpendicular", "midline", "extension"]
  else if ty = "circle" then []
  else if ty = "polygon" then
    ["connecting", "perpendicular-bisector", "angle-bisector", "parallel",
     "perpendicular", "midline", "extension"]
  else []

/-- `AuxiliaryLineManager.getAvailableTypes(shape)` for a present shape
(a missing shape returns the empty list at the call site). -/
def getAvailableTypes (s : GShape) : List String :=
  supportedAuxTypes s.type

/-- A collected selection element (kind `vertex` or `edge` plus an index;
the shape back-reference is elided). -/
structure SelElement where
  elementKind : String
  index : ℕ

/-- The interaction state of `AuxiliaryLineManager`. -/
structure AuxManagerState where
  shapes : List GShape
  isActive : Bool
  currentMode : Option String
  selectedElements : List SelElement

/-- The state installed by the `AuxiliaryLineManager` constructor:
inactive, no mode, no selections. -/
def initialManager (shapes : List GShape) : AuxManagerState :=
  ⟨shapes, false, none, []⟩

/-- `AuxiliaryLineManager.activate(mode)`: scans the shapes of the engine for one
whose supported-type list includes the mode; without one it returns false
and leaves the interaction state untouched, otherwise it starts a
collecting session. -/
def AuxiliaryLineManager.activate (m : AuxManagerState) (mode : String) :
    Bool × AuxManagerState :=
  if m.shapes.any fun s => (getAvailableTypes s).contains mode then
    (true,
      { m with
          isActive := true
          currentMode := some mode
          selectedElements := [] })
  else (false, m)

/-- C7: when the only shape of the engine is a circle, activating the
`altitude` construction
returns false and starts no construction session — the state is exactly
the inactive initial state (`isActive` false, `currentMode` null, no
selection collected), because `altitude` is not in the supported
construction types of the circle family. -/
theorem c7_circle_altitude_rejected (c : CircleS) :
    AuxiliaryLineManager.activate (initialManager [GShape.circle c])
        "altitude" =
      (false, initialManager [GShape.circle c]) := by
  unfold AuxiliaryLineManager.activate initialManager getAvailableTypes
    supportedAuxTypes GShape.type
  simp [String.reduceEq]
